import Mathlib

/-!
# BetterDeal investment-analysis engine: a shallow embedding

This file embeds the financial-modeling engine of the BetterDeal repository
(`src/betterdeal/analysis_engine.py` together with the loan-payment formula of
`src/rentcast_mcp_server/loan_calculator.py`) into Lean 4 over exact rationals,
and proves or refutes the frozen specification claims about it.

Modeling conventions:
* Python floats are modeled as `ℚ` (exact arithmetic); `round(x, d)` is modeled
  as round-half-to-even at `d` decimal places (`rnd d`).
* Python's `float('inf')` (produced only for DSCR-style ratios when the
  denominator is zero, and for the degenerate minimum-rent break-even) is
  modeled as `none` in an `Option ℚ`.
* Python dictionaries with `.get(key, default)` access are modeled as
  structures of `Option` fields read through `Option.getD`.
* Narrative display strings (scenario descriptions, pros/cons lists) carry
  formatted numbers and are presentation text; they are omitted from the
  embedding.  All numeric fields are kept.
-/

namespace BetterDeal

/-- Round half to even (banker's rounding) to the nearest integer, the tie
rule of Python's built-in `round`. -/
def rndEven (x : ℚ) : ℤ :=
  if x - ⌊x⌋ < 1/2 then ⌊x⌋
  else if 1/2 < x - ⌊x⌋ then ⌊x⌋ + 1
  else if ⌊x⌋ % 2 = 0 then ⌊x⌋ else ⌊x⌋ + 1

/-- Python's `round(x, d)`: round half to even at `d` decimal places. -/
def rnd (d : ℕ) (x : ℚ) : ℚ := (rndEven (x * 10 ^ d) : ℚ) / 10 ^ d

/-- Python's `abs` on a rational. -/
def pyAbs (x : ℚ) : ℚ := if x < 0 then -x else x

theorem pyAbs_eq_abs (x : ℚ) : pyAbs x = |x| := by
  unfold pyAbs
  rcases lt_or_le x 0 with h | h
  · rw [if_pos h, abs_of_neg h]
  · rw [if_neg (not_lt.mpr h), abs_of_nonneg h]

theorem rndEven_ge_floor (x : ℚ) : ⌊x⌋ ≤ rndEven x := by
  unfold rndEven
  split_ifs <;> omega

theorem rndEven_le_floor_add_one (x : ℚ) : rndEven x ≤ ⌊x⌋ + 1 := by
  unfold rndEven
  split_ifs <;> omega

theorem rndEven_err (x : ℚ) : |(rndEven x : ℚ) - x| ≤ 1/2 := by
  have hf : (⌊x⌋ : ℚ) ≤ x := Int.floor_le x
  have hc : x < ⌊x⌋ + 1 := Int.lt_floor_add_one x
  rw [abs_le]
  unfold rndEven
  split_ifs with h1 h2 h3 <;> constructor <;> push_cast <;> linarith

theorem rndEven_mono {x y : ℚ} (h : x ≤ y) : rndEven x ≤ rndEven y := by
  have hf : ⌊x⌋ ≤ ⌊y⌋ := Int.floor_le_floor h
  rcases eq_or_lt_of_le hf with heq | hlt
  · have hr : x - ⌊x⌋ ≤ y - ⌊y⌋ := by
      rw [← heq]; push_cast; linarith
    unfold rndEven
    rw [← heq]
    split_ifs <;> first | omega | linarith
  · calc rndEven x ≤ ⌊x⌋ + 1 := rndEven_le_floor_add_one x
    _ ≤ ⌊y⌋ := hlt
    _ ≤ rndEven y := rndEven_ge_floor y

theorem rnd_mono (d : ℕ) {x y : ℚ} (h : x ≤ y) : rnd d x ≤ rnd d y := by
  unfold rnd
  have hp : (0:ℚ) < 10 ^ d := by positivity
  gcongr
  exact_mod_cast rndEven_mono (mul_le_mul_of_nonneg_right h (le_of_lt hp))

theorem rnd_err (d : ℕ) (x : ℚ) : |rnd d x - x| ≤ 1 / (2 * 10 ^ d) := by
  unfold rnd
  have hp : (0:ℚ) < 10 ^ d := by positivity
  have h := rndEven_err (x * 10 ^ d)
  have hx : (rndEven (x * 10 ^ d) : ℚ) / 10 ^ d - x
      = ((rndEven (x * 10 ^ d) : ℚ) - x * 10 ^ d) / 10 ^ d := by
    field_simp
    ring
  rw [hx, abs_div, abs_of_pos hp, div_le_div_iff hp (by positivity)]
  calc |(rndEven (x * 10 ^ d) : ℚ) - x * 10 ^ d| * (2 * 10 ^ d)
      ≤ (1/2) * (2 * 10 ^ d) := by
        apply mul_le_mul_of_nonneg_right h (by positivity)
    _ = 1 * 10 ^ d := by ring

theorem rndEven_intCast (n : ℤ) : rndEven (n : ℚ) = n := by
  unfold rndEven
  rw [Int.floor_intCast]
  norm_num

theorem rnd_intCast (d : ℕ) (n : ℤ) : rnd d (n : ℚ) = n := by
  unfold rnd
  have h1 : ((n : ℚ) * 10 ^ d) = ((n * 10 ^ d : ℤ) : ℚ) := by push_cast; ring
  rw [h1, rndEven_intCast]
  have hp : ((10 : ℚ) ^ d) ≠ 0 := by positivity
  push_cast
  field_simp

theorem rnd_nonneg (d : ℕ) {x : ℚ} (h : 0 ≤ x) : 0 ≤ rnd d x := by
  have := rnd_mono d h
  rwa [show ((0:ℚ) = ((0:ℤ) : ℚ)) by norm_num, rnd_intCast d 0] at this

/-!
## The external loan calculator
`LoanCalculator.calculate_monthly_payment` from
`src/rentcast_mcp_server/loan_calculator.py`.
-/

/-- `LoanCalculator.calculate_monthly_payment(principal, annual_rate, years)`:
the standard mortgage payment formula, rounded to cents (the zero-rate branch
`principal / num_payments` is returned unrounded, as in the source). -/
def calculateMonthlyPayment (principal annualRate : ℚ) (years : ℕ) : ℚ :=
  if principal ≤ 0 then 0
  else
    let monthlyRate := annualRate / 12
    let numPayments : ℕ := years * 12
    if monthlyRate = 0 then principal / numPayments
    else rnd 2 (principal *
      ((monthlyRate * (1 + monthlyRate) ^ numPayments) /
        ((1 + monthlyRate) ^ numPayments - 1)))

/-- The annuity identity: for a positive monthly rate the payment factor is the
reciprocal of the present-value factor `∑ k, (1+m)⁻(k+1)`. -/
theorem annuity_factor_eq (m : ℚ) (hm : 0 < m) (n : ℕ) (hn : n ≠ 0) :
    m * (1 + m) ^ n / ((1 + m) ^ n - 1)
      = 1 / ∑ k ∈ Finset.range n, (1 / (1 + m)) ^ (k + 1) := by
  have hu1 : (1:ℚ) < 1 + m := by linarith
  have hu0 : (1 + m) ≠ 0 := by linarith
  have hun : (1:ℚ) < (1 + m) ^ n := one_lt_pow hu1 hn
  have hun0 : ((1 + m) ^ n : ℚ) ≠ 0 := by positivity
  have hlt : (1 / (1 + m) : ℚ) < 1 := (div_lt_one (by linarith)).mpr hu1
  have hne : (1 / (1 + m) : ℚ) ≠ 1 := ne_of_lt hlt
  have hd : (1 / (1 + m) - 1 : ℚ) ≠ 0 := by
    intro hd0
    exact hne (by linarith [sub_eq_zero.mp hd0])
  have h3 : ((1 + m) ^ n - 1 : ℚ) ≠ 0 := sub_ne_zero_of_ne (ne_of_gt hun)
  have hm0 : m ≠ 0 := ne_of_gt hm
  have hgeom : ∑ k ∈ Finset.range n, (1 / (1 + m)) ^ k
      = ((1 / (1 + m)) ^ n - 1) / (1 / (1 + m) - 1) := geom_sum_eq hne n
  have hsum : ∑ k ∈ Finset.range n, (1 / (1 + m)) ^ (k + 1)
      = (1 / (1 + m)) * ∑ k ∈ Finset.range n, (1 / (1 + m)) ^ k := by
    rw [Finset.mul_sum]
    exact Finset.sum_congr rfl fun k _ => by rw [pow_succ]; ring
  have hS : ∑ k ∈ Finset.range n, (1 / (1 + m)) ^ (k + 1)
      = ((1 + m) ^ n - 1) / (m * (1 + m) ^ n) := by
    rw [hsum, hgeom, div_pow, one_pow]
    field_simp
    ring
  rw [hS, one_div_div]

theorem annuity_sum_pos (m : ℚ) (hm : 0 < m) (n : ℕ) (hn : n ≠ 0) :
    0 < ∑ k ∈ Finset.range n, (1 / (1 + m)) ^ (k + 1) := by
  apply Finset.sum_pos
  · intro k _
    have : (0:ℚ) < 1 + m := by linarith
    positivity
  · exact Finset.nonempty_range_iff.mpr hn

theorem annuity_sum_anti (m₁ m₂ : ℚ) (h1 : 0 < m₁) (h12 : m₁ ≤ m₂) (n : ℕ) :
    ∑ k ∈ Finset.range n, (1 / (1 + m₂)) ^ (k + 1)
      ≤ ∑ k ∈ Finset.range n, (1 / (1 + m₁)) ^ (k + 1) := by
  apply Finset.sum_le_sum
  intro k _
  apply pow_le_pow_left
  · have : (0:ℚ) < 1 + m₂ := by linarith
    positivity
  · apply one_div_le_one_div_of_le (by linarith) (by linarith)

/-- The raw (unrounded) payment factor is monotone in the rate. -/
theorem payment_factor_mono (m₁ m₂ : ℚ) (h1 : 0 < m₁) (h12 : m₁ ≤ m₂)
    (n : ℕ) (hn : n ≠ 0) :
    m₁ * (1 + m₁) ^ n / ((1 + m₁) ^ n - 1)
      ≤ m₂ * (1 + m₂) ^ n / ((1 + m₂) ^ n - 1) := by
  have h2 : 0 < m₂ := lt_of_lt_of_le h1 h12
  rw [annuity_factor_eq m₁ h1 n hn, annuity_factor_eq m₂ h2 n hn]
  apply one_div_le_one_div_of_le
  · exact annuity_sum_pos m₂ h2 n hn
  · exact annuity_sum_anti m₁ m₂ h1 h12 n

/-- The rounded monthly payment is monotone in the interest rate, for positive
rates and a positive term. -/
theorem calculateMonthlyPayment_mono (P r₁ r₂ : ℚ) (hr1 : 0 < r₁)
    (hr12 : r₁ ≤ r₂) (y : ℕ) (hy : y ≠ 0) :
    calculateMonthlyPayment P r₁ y ≤ calculateMonthlyPayment P r₂ y := by
  unfold calculateMonthlyPayment
  by_cases hP : P ≤ 0
  · rw [if_pos hP, if_pos hP]
  · rw [if_neg hP, if_neg hP]
    have hm1 : (0:ℚ) < r₁ / 12 := by linarith
    have hm2 : (0:ℚ) < r₂ / 12 := by linarith
    rw [if_neg (ne_of_gt hm1), if_neg (ne_of_gt hm2)]
    apply rnd_mono
    apply mul_le_mul_of_nonneg_left _ (le_of_not_le hP)
    exact payment_factor_mono (r₁ / 12) (r₂ / 12) hm1 (by linarith)
      (y * 12) (by omega)

/-!
## Data model
Pydantic models of `analysis_engine.py`, with floats as `ℚ` and the possible
`float('inf')` DSCR encoded as `none`.
-/

/-- One entry of the externally supplied amortization schedule:
`{interest_paid, remaining_balance}` for one loan year. -/
structure AmortEntry where
  interest_paid : ℚ
  remaining_balance : ℚ
deriving Repr, DecidableEq

/-- The loan-details mapping consumed by `InvestmentCalculator.__init__`.
Every field the engine reads through `loan_details.get(key, default)` is an
`Option`; a missing key is `none`. -/
structure LoanDetails where
  loan_amount : Option ℚ := none
  monthly_principal_interest : Option ℚ := none
  down_payment : Option ℚ := none
  upfront_costs : Option ℚ := none
  interest_rate_decimal : Option ℚ := none
  loan_term_years : Option ℕ := none
  property_tax_annual : Option ℚ := none
  insurance_annual : Option ℚ := none
  pmi_monthly : Option ℚ := none
  hoa_monthly : Option ℚ := none
  total_monthly_payment : Option ℚ := none
deriving Repr, DecidableEq

/-- `CoreMetrics`: the year-1 snapshot.  `dscr = none` encodes the
`float('inf')` stored when annual debt service is zero. -/
structure CoreMetrics where
  gross_rental_income : ℚ := 0
  vacancy_loss : ℚ := 0
  effective_gross_income : ℚ := 0
  operating_expenses : ℚ := 0
  noi : ℚ := 0
  annual_debt_service : ℚ := 0
  cash_flow_before_tax : ℚ := 0
  total_cash_invested : ℚ := 0
  cash_on_cash_return : ℚ := 0
  cap_rate : ℚ := 0
  gross_rental_yield : ℚ := 0
  rent_to_value : ℚ := 0
  dscr : Option ℚ := some 0
  opex_ratio : ℚ := 0
  break_even_occupancy : ℚ := 0
  capex_reserve_annual : ℚ := 0
deriving Repr, DecidableEq

/-- `YearProjection`: one record per projected year. -/
structure YearProjection where
  year : ℕ
  gross_income : ℚ := 0
  vacancy_loss : ℚ := 0
  effective_income : ℚ := 0
  operating_expenses : ℚ := 0
  noi : ℚ := 0
  debt_service : ℚ := 0
  cash_flow_before_tax : ℚ := 0
  depreciation : ℚ := 0
  mortgage_interest : ℚ := 0
  taxable_income : ℚ := 0
  tax_liability : ℚ := 0
  cash_flow_after_tax : ℚ := 0
  property_value : ℚ := 0
  loan_balance : ℚ := 0
  equity : ℚ := 0
  return_on_equity : ℚ := 0
deriving Repr, DecidableEq

/-- `MultiYearProjection` with terminal metrics. -/
structure MultiYearProjection where
  years : List YearProjection := []
  irr : Option ℚ := none
  npv : Option ℚ := none
  equity_multiple : ℚ := 0
  annualized_return : Option ℚ := none
  terminal_sale_price : ℚ := 0
  selling_costs : ℚ := 0
  depreciation_recapture_tax : ℚ := 0
  net_sale_proceeds : ℚ := 0
deriving Repr, DecidableEq

/-- `TaxAnalysis`: the year-1 tax breakdown of §4.2. -/
structure TaxAnalysis where
  annual_depreciation : ℚ := 0
  depreciable_basis : ℚ := 0
  depreciation_years : ℚ := 55/2
  mortgage_interest_year1 : ℚ := 0
  noi : ℚ := 0
  taxable_income : ℚ := 0
  paper_loss : ℚ := 0
  tax_savings : ℚ := 0
  effective_cash_flow_after_tax : ℚ := 0
  marginal_tax_rate : ℚ := 22/100
deriving Repr, DecidableEq

/-- `StressScenario` (the formatted `description` display string is omitted;
`dscr = none` encodes `float('inf')`). -/
structure StressScenario where
  name : String
  cash_flow_monthly : ℚ := 0
  cash_flow_annual : ℚ := 0
  dscr : Option ℚ := some 0
  cash_on_cash : ℚ := 0
  passes : Bool := true
deriving Repr, DecidableEq

/-- `BreakEvenMetrics`.  `min_monthly_rent = none` encodes the `float('inf')`
produced when the vacancy rate is ≥ 1. -/
structure BreakEvenMetrics where
  min_monthly_rent : Option ℚ := some 0
  max_purchase_price : ℚ := 0
  max_interest_rate : ℚ := 0
  max_vacancy_rate : ℚ := 0
deriving Repr, DecidableEq

/-- `RiskAnalysis`. -/
structure RiskAnalysis where
  scenarios : List StressScenario := []
  break_even : BreakEvenMetrics := {}
  overall_risk_score : ℚ := 0
deriving Repr, DecidableEq

/-- `StrategyScore` (narrative pros/cons strings omitted; the component-score
dict is an association list in source order). -/
structure StrategyScore where
  strategy : String
  score : ℚ := 0
  grade : String := "N/A"
  component_scores : List (String × ℚ) := []
deriving Repr, DecidableEq

/-!
## `InvestmentCalculator.__init__`
-/

/-- The constructor arguments of `InvestmentCalculator`, with the Python
default values. -/
structure InvestmentCalculator where
  purchase_price : ℚ
  estimated_rent : ℚ
  loan_details : LoanDetails
  amortization : List AmortEntry
  vacancy_rate : ℚ := 5/100
  maintenance_pct : ℚ := 1/100
  management_fee_pct : ℚ := 10/100
  capex_reserve_pct : ℚ := 3/100
  appreciation_rate : ℚ := 4/100
  rent_growth_rate : ℚ := 3/100
  expense_growth_rate : ℚ := 2/100
  marginal_tax_rate : ℚ := 22/100
  hold_years : ℕ := 10
deriving Repr, DecidableEq

namespace InvestmentCalculator

variable (c : InvestmentCalculator)

/-- `self.loan_amount = loan_details.get("loan_amount", 0)` -/
def loan_amount : ℚ := c.loan_details.loan_amount.getD 0

/-- `self.annual_debt_service = loan_details.get("monthly_principal_interest", 0) * 12` -/
def annual_debt_service : ℚ := c.loan_details.monthly_principal_interest.getD 0 * 12

/-- `self.down_payment = loan_details.get("down_payment", 0)` -/
def down_payment : ℚ := c.loan_details.down_payment.getD 0

/-- `self.upfront_costs = loan_details.get("upfront_costs", 0)` -/
def upfront_costs : ℚ := c.loan_details.upfront_costs.getD 0

/-- `self.total_cash_invested = self.down_payment + self.upfront_costs` -/
def total_cash_invested : ℚ := c.down_payment + c.upfront_costs

/-- `self.interest_rate = loan_details.get("interest_rate_decimal", 0.065)` -/
def interest_rate : ℚ := c.loan_details.interest_rate_decimal.getD (65/1000)

/-- `self.loan_term = loan_details.get("loan_term_years", 30)` -/
def loan_term : ℕ := c.loan_details.loan_term_years.getD 30

/-- `self.property_tax_annual = loan_details.get("property_tax_annual", purchase_price * 0.015)` -/
def property_tax_annual : ℚ :=
  c.loan_details.property_tax_annual.getD (c.purchase_price * (15/1000))

/-- `self.insurance_annual = loan_details.get("insurance_annual", purchase_price * 0.005)` -/
def insurance_annual : ℚ :=
  c.loan_details.insurance_annual.getD (c.purchase_price * (5/1000))

/-- `self.pmi_annual = loan_details.get("pmi_monthly", 0) * 12` -/
def pmi_annual : ℚ := c.loan_details.pmi_monthly.getD 0 * 12

/-- `self.hoa_annual = loan_details.get("hoa_monthly", 0) * 12` -/
def hoa_annual : ℚ := c.loan_details.hoa_monthly.getD 0 * 12

/-- `self.maintenance_annual = purchase_price * maintenance_pct` -/
def maintenance_annual : ℚ := c.purchase_price * c.maintenance_pct

/-- `self.capex_reserve_annual = purchase_price * capex_reserve_pct` -/
def capex_reserve_annual : ℚ := c.purchase_price * c.capex_reserve_pct

/-- `self.land_value = purchase_price * 0.20` -/
def land_value : ℚ := c.purchase_price * (20/100)

/-- `self.depreciable_basis = purchase_price - land_value` -/
def depreciable_basis : ℚ := c.purchase_price - c.land_value

/-- `self.annual_depreciation = depreciable_basis / 27.5` -/
def annual_depreciation : ℚ := c.depreciable_basis / (55/2)

/-!
## `calculate_core_metrics`
The unrounded year-1 quantities are exposed as named definitions; the record
stores them rounded exactly as the source does.
-/

/-- `gross_income = estimated_rent * 12` -/
def grossIncome1 : ℚ := c.estimated_rent * 12

/-- `vacancy_loss = gross_income * vacancy_rate` -/
def vacancyLoss1 : ℚ := c.grossIncome1 * c.vacancy_rate

/-- `egi = gross_income - vacancy_loss` -/
def egi1 : ℚ := c.grossIncome1 - c.vacancyLoss1

/-- `management_fee = gross_income * management_fee_pct` -/
def managementFee1 : ℚ := c.grossIncome1 * c.management_fee_pct

/-- Year-1 operating expenses (tax + insurance + PMI + HOA + maintenance +
capex reserve + management fee). -/
def opex1 : ℚ :=
  c.property_tax_annual + c.insurance_annual + c.pmi_annual + c.hoa_annual
    + c.maintenance_annual + c.capex_reserve_annual + c.managementFee1

/-- `noi = egi - opex` -/
def noi1 : ℚ := c.egi1 - c.opex1

/-- `cash_flow_bt = noi - annual_debt_service` -/
def cashFlowBT1 : ℚ := c.noi1 - c.annual_debt_service

/-- `InvestmentCalculator.calculate_core_metrics`. -/
def calculateCoreMetrics : CoreMetrics :=
  let gross_income := c.grossIncome1
  let egi := c.egi1
  let opex := c.opex1
  let noi := c.noi1
  let cash_flow_bt := c.cashFlowBT1
  let coc := if c.total_cash_invested > 0 then cash_flow_bt / c.total_cash_invested * 100 else 0
  let cap_rate := if c.purchase_price > 0 then noi / c.purchase_price * 100 else 0
  let gross_yield := if c.purchase_price > 0 then gross_income / c.purchase_price * 100 else 0
  let rtv := if c.purchase_price > 0 then c.estimated_rent / c.purchase_price * 100 else 0
  let dscr : Option ℚ := if c.annual_debt_service > 0 then some (noi / c.annual_debt_service) else none
  let opexShare := if egi > 0 then opex / egi * 100 else 0
  let be_occ := if gross_income > 0 then (opex + c.annual_debt_service) / gross_income * 100 else 100
  { gross_rental_income := rnd 2 gross_income
    vacancy_loss := rnd 2 c.vacancyLoss1
    effective_gross_income := rnd 2 egi
    operating_expenses := rnd 2 opex
    noi := rnd 2 noi
    annual_debt_service := rnd 2 c.annual_debt_service
    cash_flow_before_tax := rnd 2 cash_flow_bt
    total_cash_invested := rnd 2 c.total_cash_invested
    cash_on_cash_return := rnd 2 coc
    cap_rate := rnd 2 cap_rate
    gross_rental_yield := rnd 2 gross_yield
    rent_to_value := rnd 3 rtv
    dscr := dscr.map (rnd 2)
    opex_ratio := rnd 2 opexShare
    break_even_occupancy := rnd 2 (min be_occ 100)
    capex_reserve_annual := rnd 2 c.capex_reserve_annual }

/-!
## `generate_multi_year_projection`: the per-year quantities
All functions take the 1-based projection year `yr`.
-/

/-- `gross_income = estimated_rent * 12 * (1 + rent_growth_rate)^(yr-1)` -/
def grossIncomeYr (yr : ℕ) : ℚ :=
  c.estimated_rent * 12 * (1 + c.rent_growth_rate) ^ (yr - 1)

/-- `vac_loss = gross_income * vacancy_rate` -/
def vacLossYr (yr : ℕ) : ℚ := c.grossIncomeYr yr * c.vacancy_rate

/-- `egi = gross_income - vac_loss` -/
def egiYr (yr : ℕ) : ℚ := c.grossIncomeYr yr - c.vacLossYr yr

/-- `management_fee = gross_income * management_fee_pct` -/
def managementFeeYr (yr : ℕ) : ℚ := c.grossIncomeYr yr * c.management_fee_pct

/-- Year-`yr` operating expenses: escalated tax/insurance/HOA/maintenance/capex
(`(1+expense_growth_rate)^(yr-1)`), unescalated PMI, plus the management fee. -/
def opexYr (yr : ℕ) : ℚ :=
  c.property_tax_annual * (1 + c.expense_growth_rate) ^ (yr - 1)
    + c.insurance_annual * (1 + c.expense_growth_rate) ^ (yr - 1)
    + c.pmi_annual
    + c.hoa_annual * (1 + c.expense_growth_rate) ^ (yr - 1)
    + c.maintenance_annual * (1 + c.expense_growth_rate) ^ (yr - 1)
    + c.capex_reserve_annual * (1 + c.expense_growth_rate) ^ (yr - 1)
    + c.managementFeeYr yr

/-- `noi = egi - opex` -/
def noiYr (yr : ℕ) : ℚ := c.egiYr yr - c.opexYr yr

/-- `cf_bt = noi - debt_service` (debt service is constant). -/
def cashFlowBTYr (yr : ℕ) : ℚ := c.noiYr yr - c.annual_debt_service

/-- Mortgage interest for year `yr`, read from the amortization schedule:
`amortization[yr-1]["interest_paid"]` when `yr <= len(amortization)`, else 0. -/
def mortgageInterestYr (yr : ℕ) : ℚ :=
  if yr ≤ c.amortization.length then (c.amortization.getD (yr - 1) ⟨0, 0⟩).interest_paid
  else 0

/-- Remaining loan balance for year `yr`, read from the amortization schedule:
`amortization[yr-1]["remaining_balance"]` when `yr <= len(amortization)`, else 0. -/
def loanBalanceYr (yr : ℕ) : ℚ :=
  if yr ≤ c.amortization.length then (c.amortization.getD (yr - 1) ⟨0, 0⟩).remaining_balance
  else 0

/-- `taxable_income = noi - depreciation - mortgage_interest` -/
def taxableIncomeYr (yr : ℕ) : ℚ :=
  c.noiYr yr - c.annual_depreciation - c.mortgageInterestYr yr

/-- `tax = taxable_income * marginal_tax_rate if taxable_income > 0 else 0` -/
def taxYr (yr : ℕ) : ℚ :=
  if c.taxableIncomeYr yr > 0 then c.taxableIncomeYr yr * c.marginal_tax_rate else 0

/-- `cf_at = cf_bt - tax` -/
def cashFlowATYr (yr : ℕ) : ℚ := c.cashFlowBTYr yr - c.taxYr yr

/-- `prop_value = purchase_price * (1 + appreciation_rate)^yr` -/
def propertyValueYr (yr : ℕ) : ℚ := c.purchase_price * (1 + c.appreciation_rate) ^ yr

/-- `equity = prop_value - loan_balance` -/
def equityYr (yr : ℕ) : ℚ := c.propertyValueYr yr - c.loanBalanceYr yr

/-- `roe = cf_bt / equity * 100 if equity > 0 else 0` -/
def roeYr (yr : ℕ) : ℚ :=
  if c.equityYr yr > 0 then c.cashFlowBTYr yr / c.equityYr yr * 100 else 0

/-- The `YearProjection` record appended for year `yr` (rounded to cents as in
the source). -/
def yearProjection (yr : ℕ) : YearProjection :=
  { year := yr
    gross_income := rnd 2 (c.grossIncomeYr yr)
    vacancy_loss := rnd 2 (c.vacLossYr yr)
    effective_income := rnd 2 (c.egiYr yr)
    operating_expenses := rnd 2 (c.opexYr yr)
    noi := rnd 2 (c.noiYr yr)
    debt_service := rnd 2 c.annual_debt_service
    cash_flow_before_tax := rnd 2 (c.cashFlowBTYr yr)
    depreciation := rnd 2 c.annual_depreciation
    mortgage_interest := rnd 2 (c.mortgageInterestYr yr)
    taxable_income := rnd 2 (c.taxableIncomeYr yr)
    tax_liability := rnd 2 (c.taxYr yr)
    cash_flow_after_tax := rnd 2 (c.cashFlowATYr yr)
    property_value := rnd 2 (c.propertyValueYr yr)
    loan_balance := rnd 2 (c.loanBalanceYr yr)
    equity := rnd 2 (c.equityYr yr)
    return_on_equity := rnd 2 (c.roeYr yr) }

/-- The thirty `YearProjection` records, years 1..30. -/
def projectionYears : List YearProjection := (List.range' 1 30).map c.yearProjection

end InvestmentCalculator

/-!
## The NPV / IRR solver
-/

/-- `sum(cf / (1 + rate) ** t for t, cf in enumerate(cash_flows))`. -/
def npvAt (cashFlows : List ℚ) (rate : ℚ) : ℚ :=
  (cashFlows.enum.map (fun p => p.2 / (1 + rate) ^ p.1)).sum

/-- The analytic derivative `sum(-t * cf / (1 + r) ** (t + 1) ...)`. -/
def dnpvAt (cashFlows : List ℚ) (rate : ℚ) : ℚ :=
  (cashFlows.enum.map (fun p => -(p.1 : ℚ) * p.2 / (1 + rate) ^ (p.1 + 1))).sum

/-- `InvestmentCalculator.calculate_npv` (`None` on an empty series). -/
def calculateNPV (cashFlows : List ℚ) (discountRate : ℚ) : Option ℚ :=
  if cashFlows = [] then none else some (npvAt cashFlows discountRate)

/-- One Newton-Raphson iteration step of `calculate_irr`, with explicit fuel.
`Sum.inl rNew` is the early `return r_new` inside the loop; `Sum.inr r` means
the loop was left (derivative break, boundary break, or fuel exhausted) with
current iterate `r`, to be handed to the post-loop convergence check. -/
def irrLoop (cashFlows : List ℚ) : ℕ → ℚ → ℚ ⊕ ℚ
  | 0, r => Sum.inr r
  | fuel + 1, r =>
    let npv := npvAt cashFlows r
    let dnpv := dnpvAt cashFlows r
    if pyAbs dnpv < 1/10^12 then Sum.inr r
    else
      let rNew := max (-(99/100)) (min (r - npv / dnpv) 2)
      if pyAbs (rNew - r) < 1/10^8 then
        if pyAbs (rNew - 2) < 1/10^8 ∨ pyAbs (rNew - (-(99/100))) < 1/10^8 then Sum.inr r
        else Sum.inl rNew
      else irrLoop cashFlows fuel rNew

/-- `InvestmentCalculator.calculate_irr` (Newton-Raphson, 200 iterations,
tolerance 1e-8, clamps [-0.99, 2.0], post-loop NPV verification). -/
def calculateIRR (cashFlows : List ℚ) : Option ℚ :=
  if cashFlows.length < 2 then none
  else
    let totalInvested := pyAbs cashFlows.headI
    let totalReturned := cashFlows.tail.sum
    if totalReturned ≤ 0 then none
    else
      let r0 := if totalInvested > 0 then
          max (-(1/2)) (min (((totalReturned - totalInvested) / totalInvested) / cashFlows.length) (1/2))
        else 1/10
      match irrLoop cashFlows 200 r0 with
      | Sum.inl rNew => some rNew
      | Sum.inr r =>
        if pyAbs (npvAt cashFlows r) < max 1 (totalInvested * (1/1000)) then some r
        else none

/-- Add a value to the last entry of a list (`cash_flows[-1] += net_sale`). -/
def bumpLast : List ℚ → ℚ → List ℚ
  | [], _ => []
  | [x], v => [x + v]
  | x :: y :: xs, v => x :: bumpLast (y :: xs) v

namespace InvestmentCalculator

variable (c : InvestmentCalculator)

/-- The IRR cash-flow series as built by the projection loop, before the
terminal sale is folded in: `[-total_cash_invested]` followed by the after-tax
cash flow of every projected year `yr ≤ hold_years` (the loop runs years
1..30 and appends only while `yr <= hold_years`). -/
def irrSeriesPre : List ℚ :=
  -c.total_cash_invested ::
    ((List.range' 1 30).filter (fun yr => decide (yr ≤ c.hold_years))).map c.cashFlowATYr

/-- `hold_yr = years[hold_years - 1] if hold_years <= len(years) else years[-1]`.
`len(years)` is always 30; for `hold_years = 0` Python's `years[-1]` negative
indexing also selects year 30. -/
def holdYearRecord : YearProjection :=
  if 1 ≤ c.hold_years ∧ c.hold_years ≤ 30 then c.yearProjection c.hold_years
  else c.yearProjection 30

/-- `terminal_sale_price = hold_yr.property_value` -/
def terminalSalePrice : ℚ := c.holdYearRecord.property_value

/-- `selling_costs = terminal_sale_price * 0.06` -/
def sellingCosts : ℚ := c.terminalSalePrice * (6/100)

/-- `dep_recapture_tax = min(annual_depreciation * hold_years, depreciable_basis) * 0.25`.
This is the second, surviving assignment; the preceding
`cumulative_depreciation * 0.25 if hold_years <= 27 else depreciable_basis * 0.25`
is immediately overwritten (dead code) and is not modeled. -/
def depRecaptureTax : ℚ :=
  min (c.annual_depreciation * c.hold_years) c.depreciable_basis * (25/100)

/-- `net_sale = terminal_sale_price - selling_costs - hold_yr.loan_balance - dep_recapture_tax` -/
def netSaleProceeds : ℚ :=
  c.terminalSalePrice - c.sellingCosts - c.holdYearRecord.loan_balance - c.depRecaptureTax

/-- The final IRR cash-flow series: net sale proceeds are added to the last
entry when the series has more than one entry. -/
def irrCashFlows : List ℚ :=
  if 1 < c.irrSeriesPre.length then bumpLast c.irrSeriesPre c.netSaleProceeds
  else c.irrSeriesPre

/-- `InvestmentCalculator.generate_multi_year_projection`. -/
def generateMultiYearProjection : MultiYearProjection :=
  let cashFlows := c.irrCashFlows
  let irr := calculateIRR cashFlows
  let npv := calculateNPV cashFlows (8/100)
  let totalCashReturned := cashFlows.tail.sum
  let equityMultiple :=
    if c.total_cash_invested > 0 then totalCashReturned / c.total_cash_invested else 0
  { years := c.projectionYears
    irr := irr.map (fun r => rnd 2 (r * 100))
    npv := npv.map (rnd 2)
    equity_multiple := rnd 2 equityMultiple
    annualized_return := irr.map (fun r => rnd 2 (r * 100))
    terminal_sale_price := rnd 2 c.terminalSalePrice
    selling_costs := rnd 2 c.sellingCosts
    depreciation_recapture_tax := rnd 2 c.depRecaptureTax
    net_sale_proceeds := rnd 2 c.netSaleProceeds }

/-!
## `calculate_tax_analysis` (year 1, §4.2)
-/

/-- `interest_yr1 = amortization[0]["interest_paid"] if amortization else 0` -/
def interestYear1 : ℚ :=
  match c.amortization with
  | [] => 0
  | e :: _ => e.interest_paid

/-- `InvestmentCalculator.calculate_tax_analysis(core)`. -/
def calculateTaxAnalysis (core : CoreMetrics) : TaxAnalysis :=
  let taxable_income := core.noi - c.annual_depreciation - c.interestYear1
  let paper_loss := min taxable_income 0
  let tax_savings := if paper_loss < 0 then pyAbs paper_loss * c.marginal_tax_rate else 0
  let tax_owed := if taxable_income > 0 then taxable_income * c.marginal_tax_rate else 0
  let cf_after_tax := core.cash_flow_before_tax - tax_owed + tax_savings
  { annual_depreciation := rnd 2 c.annual_depreciation
    depreciable_basis := rnd 2 c.depreciable_basis
    mortgage_interest_year1 := rnd 2 c.interestYear1
    noi := rnd 2 core.noi
    taxable_income := rnd 2 taxable_income
    paper_loss := rnd 2 paper_loss
    tax_savings := rnd 2 tax_savings
    effective_cash_flow_after_tax := rnd 2 cf_after_tax
    marginal_tax_rate := c.marginal_tax_rate }

/-!
## `run_stress_tests` and `_calc_break_evens`
-/

/-- `base_opex_no_mgmt`: property tax + insurance + PMI + HOA + maintenance +
capex reserve (management fee excluded). -/
def baseOpexNoMgmt : ℚ :=
  c.property_tax_annual + c.insurance_annual + c.pmi_annual + c.hoa_annual
    + c.maintenance_annual + c.capex_reserve_annual

/-- The NOI recomputed by `calc_scenario` for perturbed vacancy, rent
multiplier and expense multiplier. -/
def scenNOI (vacancy rentMult expenseMult : ℚ) : ℚ :=
  let gross := c.estimated_rent * 12 * rentMult
  let vac := gross * vacancy
  let egi := gross - vac
  let mgmt := gross * c.management_fee_pct
  egi - (c.baseOpexNoMgmt * expenseMult + mgmt)

/-- The debt service used by `calc_scenario`: recomputed through the external
monthly-payment formula at `interest_rate + rate_add` when `rate_add > 0`,
otherwise the baseline annual debt service. -/
def scenDS (rateAdd : ℚ) : ℚ :=
  if rateAdd > 0 then
    calculateMonthlyPayment c.loan_amount (c.interest_rate + rateAdd) c.loan_term * 12
  else c.annual_debt_service

/-- The scenario annual cash flow `cf = noi - ds`. -/
def scenCF (vacancy rentMult expenseMult rateAdd : ℚ) : ℚ :=
  c.scenNOI vacancy rentMult expenseMult - c.scenDS rateAdd

/-- The scenario DSCR, `none` encoding `float('inf')` when `ds = 0`. -/
def scenDSCR (vacancy rentMult expenseMult rateAdd : ℚ) : Option ℚ :=
  if c.scenDS rateAdd > 0 then
    some (c.scenNOI vacancy rentMult expenseMult / c.scenDS rateAdd)
  else none

/-- `dscr >= 1.0` on a possibly-infinite DSCR (`none` = `float('inf')`). -/
def dscrAtLeastOne : Option ℚ → Bool
  | none => true
  | some q => decide (1 ≤ q)

/-- The inner `calc_scenario` helper of `run_stress_tests`. -/
def calcScenario (name : String) (vacancy rentMult expenseMult rateAdd : ℚ) :
    StressScenario :=
  let cf := c.scenCF vacancy rentMult expenseMult rateAdd
  let coc := if c.total_cash_invested > 0 then cf / c.total_cash_invested * 100 else 0
  { name := name
    cash_flow_monthly := rnd 2 (cf / 12)
    cash_flow_annual := rnd 2 cf
    dscr := (c.scenDSCR vacancy rentMult expenseMult rateAdd).map (rnd 2)
    cash_on_cash := rnd 2 coc
    passes := decide (cf ≥ 0) && dscrAtLeastOne (c.scenDSCR vacancy rentMult expenseMult rateAdd) }

/-- The six fixed stress scenarios, in source order. -/
def stressScenarios : List StressScenario :=
  [ c.calcScenario "Vacancy Doubles" (c.vacancy_rate * 2) 1 1 0
  , c.calcScenario "Rate +2%" c.vacancy_rate 1 1 (2/100)
  , c.calcScenario "Rent -10%" c.vacancy_rate (90/100) 1 0
  , c.calcScenario "Rent -20%" c.vacancy_rate (80/100) 1 0
  , c.calcScenario "Expense Surge" c.vacancy_rate 1 (150/100) 0
  , c.calcScenario "Combined Downturn" (c.vacancy_rate * (15/10)) (90/100) (120/100) 0 ]

/-- The binary search of `_find_max_rate` (50 bisection steps on `[lo, hi]`,
returning `lo`). -/
def maxRateSearch (noi : ℚ) : ℕ → ℚ → ℚ → ℚ
  | 0, lo, _ => lo
  | fuel + 1, lo, hi =>
    let mid := (lo + hi) / 2
    let ds := calculateMonthlyPayment c.loan_amount mid c.loan_term * 12
    if ds < noi then maxRateSearch noi fuel mid hi
    else maxRateSearch noi fuel lo mid

/-- `InvestmentCalculator._find_max_rate(noi)`. -/
def findMaxRate (noi : ℚ) : ℚ :=
  if noi ≤ 0 ∨ c.loan_amount ≤ 0 then 0
  else c.maxRateSearch noi 50 (1/1000) (25/100)

/-- `InvestmentCalculator._calc_break_evens(core)`. -/
def calcBreakEvens (core : CoreMetrics) : BreakEvenMetrics :=
  let opex := core.operating_expenses
  let ds := c.annual_debt_service
  let requiredAnnual : Option ℚ :=
    if c.vacancy_rate < 1 then some ((opex + ds) / (1 - c.vacancy_rate)) else none
  let minRent : Option ℚ := requiredAnnual.map (· / 12)
  let targetCoc : ℚ := 8/100
  let maxPrice : ℚ :=
    if c.total_cash_invested > 0 ∧ c.purchase_price > 0 then
      let currentCF := core.cash_flow_before_tax
      let neededCF := targetCoc * c.total_cash_invested
      if currentCF > neededCF then c.purchase_price * (15/10)
      else if core.noi > 0 then
        let scale :=
          if core.noi - currentCF + neededCF > 0 then
            core.noi / (core.noi - currentCF + neededCF)
          else 1
        c.purchase_price * min scale 2
      else 0
    else 0
  let maxRate := c.findMaxRate core.noi
  let gross := c.estimated_rent * 12
  let maxVac : ℚ :=
    if gross > 0 then max 0 (min (1 - (ds + opex) / gross) 1)
    else 0
  { min_monthly_rent := minRent.map (fun x => rnd 2 (max x 0))
    max_purchase_price := rnd 2 (max maxPrice 0)
    max_interest_rate := rnd 2 (maxRate * 100)
    max_vacancy_rate := rnd 2 (maxVac * 100) }

/-- `InvestmentCalculator.run_stress_tests(core)`. -/
def runStressTests (core : CoreMetrics) : RiskAnalysis :=
  let scenarios := c.stressScenarios
  let failCount := scenarios.countP (fun s => !s.passes)
  let riskScore : ℚ := if scenarios ≠ [] then (failCount : ℚ) / scenarios.length * 100 else 0
  { scenarios := scenarios
    break_even := c.calcBreakEvens core
    overall_risk_score := rnd 1 riskScore }

end InvestmentCalculator

/-!
## The scoring engine
-/

/-- `InvestmentCalculator._to_grade`: letter grade from 12 fixed breakpoints. -/
def toGrade (score : ℚ) : String :=
  if score ≥ 95 then "A+"
  else if score ≥ 90 then "A"
  else if score ≥ 85 then "A-"
  else if score ≥ 80 then "B+"
  else if score ≥ 75 then "B"
  else if score ≥ 70 then "B-"
  else if score ≥ 65 then "C+"
  else if score ≥ 60 then "C"
  else if score ≥ 55 then "C-"
  else if score ≥ 50 then "D+"
  else if score ≥ 45 then "D"
  else if score ≥ 40 then "D-"
  else "F"

/-- `min(100, max(0, (dscr - 0.5) / 1.0 * 100))` on a possibly-infinite DSCR;
with `float('inf')` the arithmetic propagates and `min(100, inf) = 100`. -/
def dscrScore : Option ℚ → ℚ
  | none => 100
  | some q => min 100 (max 0 ((q - 1/2) / 1 * 100))

/-- `proj.years[9] if len(proj.years) >= 10 else (proj.years[-1] if proj.years else None)` -/
def yearTenRecord (proj : MultiYearProjection) : Option YearProjection :=
  if 10 ≤ proj.years.length then proj.years.get? 9 else proj.years.getLast?

namespace InvestmentCalculator

variable (c : InvestmentCalculator)

/-- `InvestmentCalculator._score_rental`. -/
def scoreRental (core : CoreMetrics) (proj : MultiYearProjection)
    (risk : RiskAnalysis) : StrategyScore :=
  let cocScore := min 100 (max 0 (core.cash_on_cash_return / 8 * 100))
  let capScore := min 100 (max 0 (core.cap_rate / 6 * 100))
  let dscrSc := dscrScore core.dscr
  let cfScore := min 100 (max 0 (core.cash_flow_before_tax / 12 / 200 * 100))
  let irrScore := min 100 (max 0 (proj.irr.getD 0 / 15 * 100))
  let riskScore := max 0 (100 - risk.overall_risk_score)
  let total := cocScore * (25/100) + capScore * (20/100) + dscrSc * (20/100)
    + cfScore * (15/100) + irrScore * (10/100) + riskScore * (10/100)
  { strategy := "rental"
    score := rnd 1 (min total 100)
    grade := toGrade total
    component_scores :=
      [ ("Cash-on-Cash", rnd 1 cocScore), ("Cap Rate", rnd 1 capScore)
      , ("DSCR", rnd 1 dscrSc), ("Cash Flow", rnd 1 cfScore)
      , ("IRR", rnd 1 irrScore), ("Risk", rnd 1 riskScore) ] }

/-- `InvestmentCalculator._score_flip`. -/
def scoreFlip : StrategyScore :=
  let arvEstimate := c.purchase_price * (1 + c.appreciation_rate)
  let profit := arvEstimate - c.purchase_price
  let margin := if c.purchase_price > 0 then profit / c.purchase_price * 100 else 0
  let marginScore := min 100 (max 0 (margin / 20 * 100))
  let roiScore := min 100 (max 0 (margin / 15 * 100))
  let total := marginScore * (60/100) + roiScore * (40/100)
  { strategy := "flip"
    score := rnd 1 (min total 100)
    grade := toGrade total
    component_scores := [("Profit Margin", rnd 1 marginScore), ("ROI", rnd 1 roiScore)] }

/-- `InvestmentCalculator._score_brrrr`. -/
def scoreBrrrr (core : CoreMetrics) : StrategyScore :=
  let yr1Value := c.purchase_price * (1 + c.appreciation_rate)
  let refiLoan := yr1Value * (75/100)
  let equityExtraction := refiLoan - c.loan_amount
  let extractionPct :=
    if c.total_cash_invested > 0 then equityExtraction / c.total_cash_invested * 100 else 0
  let rentalScore := min 100 (max 0 (core.cash_on_cash_return / 10 * 100))
  let extractionScore := min 100 (max 0 (extractionPct / 100 * 100))
  let dscrSc := dscrScore core.dscr
  let total := rentalScore * (40/100) + extractionScore * (35/100) + dscrSc * (25/100)
  { strategy := "brrrr"
    score := rnd 1 (min total 100)
    grade := toGrade total
    component_scores :=
      [ ("Rental Return", rnd 1 rentalScore)
      , ("Equity Extraction", rnd 1 extractionScore)
      , ("DSCR", rnd 1 dscrSc) ] }

/-- `InvestmentCalculator._score_house_hack`. -/
def scoreHouseHack : StrategyScore :=
  let totalPayment := c.loan_details.total_monthly_payment.getD 0
  let rentalCoverage :=
    if totalPayment > 0 then c.estimated_rent / totalPayment * 100 else 0
  let personalCost := totalPayment - c.estimated_rent * (1/2)
  let costReduction :=
    if totalPayment > 0 then (totalPayment - personalCost) / totalPayment * 100 else 0
  let coverageScore := min 100 (max 0 (rentalCoverage / 100 * 100))
  let costScore := min 100 (max 0 (costReduction / 50 * 100))
  let total := coverageScore * (60/100) + costScore * (40/100)
  { strategy := "house_hack"
    score := rnd 1 (min total 100)
    grade := toGrade total
    component_scores :=
      [("Rental Coverage", rnd 1 coverageScore), ("Cost Reduction", rnd 1 costScore)] }

/-- `InvestmentCalculator._score_long_term`. -/
def scoreLongTerm (core : CoreMetrics) (proj : MultiYearProjection)
    (risk : RiskAnalysis) : StrategyScore :=
  let irr10 := proj.irr.getD 0
  let irrScore := min 100 (max 0 (irr10 / 12 * 100))
  let equityScore : ℚ :=
    match yearTenRecord proj with
    | some yr10 =>
      if c.total_cash_invested > 0 then
        let cumulativeCF := ((proj.years.take 10).map (fun y => y.cash_flow_before_tax)).sum
        let netEquity := yr10.equity + cumulativeCF
        let equityMult := netEquity / c.total_cash_invested
        min 100 (max 0 (equityMult / 5 * 100))
      else 0
    | none => 0
  let appScore := min 100 (max 0 (c.appreciation_rate / (5/100) * 100))
  let riskScore := max 0 (100 - risk.overall_risk_score)
  let cfPenalty : ℚ :=
    if core.cash_flow_before_tax < 0 then
      max (1/10) (1 - pyAbs core.cash_flow_before_tax / max c.total_cash_invested 1)
    else 1
  let rawTotal := irrScore * (35/100) + equityScore * (30/100)
    + appScore * (20/100) + riskScore * (15/100)
  let total := rawTotal * cfPenalty
  { strategy := "long_term_appreciation"
    score := rnd 1 (min total 100)
    grade := toGrade total
    component_scores :=
      [ ("10Y IRR", rnd 1 irrScore), ("Net Equity", rnd 1 equityScore)
      , ("Appreciation", rnd 1 appScore), ("Risk", rnd 1 riskScore) ] }

/-- `InvestmentCalculator.score_all_strategies`. -/
def scoreAllStrategies (core : CoreMetrics) (proj : MultiYearProjection)
    (risk : RiskAnalysis) : List StrategyScore :=
  [ scoreRental core proj risk
  , c.scoreFlip
  , c.scoreBrrrr core
  , c.scoreHouseHack
  , c.scoreLongTerm core proj risk ]

end InvestmentCalculator

/-!
## Claim C1
-/

/-- Claim C1 (amended): in the 30-year projection every year's taxable income
is `noi - depreciation - mortgage_interest` and the after-tax cash flow equals
the pre-tax cash flow minus the tax owed `max(taxable_income, 0) * marginal_rate`;
unlike the year-1 analysis of §4.2, no paper-loss tax savings are added back. -/
theorem c1_projection_after_tax_cash_flow (c : InvestmentCalculator) (yr : ℕ) :
    c.cashFlowATYr yr
      = c.cashFlowBTYr yr - max (c.taxableIncomeYr yr) 0 * c.marginal_tax_rate := by
  unfold InvestmentCalculator.cashFlowATYr InvestmentCalculator.taxYr
  rcases lt_or_le 0 (c.taxableIncomeYr yr) with h | h
  · rw [if_pos h, max_eq_left (le_of_lt h)]
  · rw [if_neg (not_lt.mpr h), max_eq_right h]
    ring

/-- A property analysis with no loan: price 100000, rent 500/month, all other
parameters at their defaults, empty amortization schedule.  Year 1 has
NOI = -900, depreciation 80000/27.5, so taxable income is negative. -/
def taxCex : InvestmentCalculator :=
  { purchase_price := 100000
    estimated_rent := 500
    loan_details := {}
    amortization := [] }

/-- Claim C1 counterexample: at `taxCex`, year 1, the projection's after-tax
cash flow (-900) differs from the §4.2 formula
`pre_tax - tax_owed + tax_savings` (-62): the projection never adds the
paper-loss tax savings `|min(taxable_income, 0)| * marginal_rate` back. -/
theorem c1_counterexample :
    ¬ (taxCex.cashFlowATYr 1
        = taxCex.cashFlowBTYr 1
          - max (taxCex.taxableIncomeYr 1) 0 * taxCex.marginal_tax_rate
          + |min (taxCex.taxableIncomeYr 1) 0| * taxCex.marginal_tax_rate) := by
  norm_num [taxCex, InvestmentCalculator.cashFlowATYr, InvestmentCalculator.taxYr,
    InvestmentCalculator.taxableIncomeYr, InvestmentCalculator.cashFlowBTYr,
    InvestmentCalculator.noiYr, InvestmentCalculator.egiYr, InvestmentCalculator.opexYr,
    InvestmentCalculator.vacLossYr, InvestmentCalculator.grossIncomeYr,
    InvestmentCalculator.managementFeeYr, InvestmentCalculator.mortgageInterestYr,
    InvestmentCalculator.annual_depreciation, InvestmentCalculator.depreciable_basis,
    InvestmentCalculator.land_value, InvestmentCalculator.property_tax_annual,
    InvestmentCalculator.insurance_annual, InvestmentCalculator.pmi_annual,
    InvestmentCalculator.hoa_annual, InvestmentCalculator.maintenance_annual,
    InvestmentCalculator.capex_reserve_annual, InvestmentCalculator.annual_debt_service]

/-!
## Claim C7
-/

/-- Claim C7: for `1 ≤ hold_years ≤ 30` the terminal depreciation-recapture tax
is `min(annual_depreciation * hold_years, depreciable_basis) * 25%` (the final
formula; the earlier assignment is overwritten), and the net sale proceeds are
sale price - 6% selling costs - loan balance at `hold_years` - recapture tax,
the sale price being the (cent-rounded) projected property value at
`hold_years`. -/
theorem c7_terminal_sale (c : InvestmentCalculator)
    (h1 : 1 ≤ c.hold_years) (h30 : c.hold_years ≤ 30) :
    c.depRecaptureTax
        = min (c.annual_depreciation * c.hold_years) c.depreciable_basis * (25/100)
    ∧ c.netSaleProceeds
        = rnd 2 (c.propertyValueYr c.hold_years)
          - rnd 2 (c.propertyValueYr c.hold_years) * (6/100)
          - rnd 2 (c.loanBalanceYr c.hold_years)
          - min (c.annual_depreciation * c.hold_years) c.depreciable_basis * (25/100) := by
  constructor
  · rfl
  · unfold InvestmentCalculator.netSaleProceeds InvestmentCalculator.sellingCosts
      InvestmentCalculator.terminalSalePrice InvestmentCalculator.holdYearRecord
      InvestmentCalculator.depRecaptureTax
    rw [if_pos ⟨h1, h30⟩]
    rfl

/-- A default 10-year-hold analysis used to witness claim C7. -/
def holdW : InvestmentCalculator :=
  { purchase_price := 200000
    estimated_rent := 1500
    loan_details := {}
    amortization := [] }

/-- Witness for claim C7 at `holdW` (hold_years = 10). -/
theorem c7_terminal_sale_witness :
    holdW.depRecaptureTax
      = min (holdW.annual_depreciation * holdW.hold_years) holdW.depreciable_basis
          * (25/100) :=
  (c7_terminal_sale holdW (by decide) (by decide)).1

/-!
## Claim C10
-/

/-- Claim C10: for every projected year the mortgage interest and loan balance
are read from the externally supplied amortization schedule entry for that
year (one entry per loan year), and both are zero for any year past the end of
the schedule — out-of-range years never fail and yield 0 for both fields. -/
theorem c10_amortization_schedule_access (c : InvestmentCalculator) (yr : ℕ)
    (e : AmortEntry) :
    (c.amortization.length < yr
      → c.mortgageInterestYr yr = 0 ∧ c.loanBalanceYr yr = 0)
    ∧ (1 ≤ yr → c.amortization.get? (yr - 1) = some e
      → c.mortgageInterestYr yr = e.interest_paid
        ∧ c.loanBalanceYr yr = e.remaining_balance) := by
  constructor
  · intro h
    unfold InvestmentCalculator.mortgageInterestYr InvestmentCalculator.loanBalanceYr
    rw [if_neg (not_le.mpr h), if_neg (not_le.mpr h)]
    exact ⟨rfl, rfl⟩
  · intro h1 hget
    have hlt : yr - 1 < c.amortization.length := (List.get?_eq_some.mp hget).1
    have hle : yr ≤ c.amortization.length := by omega
    have hgetD : c.amortization.getD (yr - 1) ⟨0, 0⟩ = e := by
      obtain ⟨hb, hv⟩ := List.get?_eq_some.mp hget
      rw [List.getD_eq_getElem _ _ hlt]
      rw [List.get_eq_getElem] at hv
      exact hv
    unfold InvestmentCalculator.mortgageInterestYr InvestmentCalculator.loanBalanceYr
    rw [if_pos hle, if_pos hle, hgetD]
    exact ⟨rfl, rfl⟩

/-- A one-year amortization schedule used to witness claim C10. -/
def amortW : InvestmentCalculator :=
  { purchase_price := 100000
    estimated_rent := 1000
    loan_details := {}
    amortization := [⟨6400, 97000⟩] }

/-- Witness for claim C10: within the schedule year 1 reads the entry, and
year 2 (past the one-year schedule) yields 0 for both fields. -/
theorem c10_amortization_schedule_access_witness :
    (amortW.mortgageInterestYr 2 = 0 ∧ amortW.loanBalanceYr 2 = 0)
    ∧ (amortW.mortgageInterestYr 1 = (6400:ℚ)
        ∧ amortW.loanBalanceYr 1 = (97000:ℚ)) :=
  ⟨(c10_amortization_schedule_access amortW 2 ⟨6400, 97000⟩).1 (by decide),
   (c10_amortization_schedule_access amortW 1 ⟨6400, 97000⟩).2 (by decide) rfl⟩

/-!
## Claim C4
-/

theorem filter_range'_le (h : ℕ) (hh : h ≤ 30) :
    (List.range' 1 30).filter (fun yr => decide (yr ≤ h)) = List.range' 1 h := by
  have hsplit : List.range' 1 h ++ List.range' (1 + h) (30 - h) = List.range' 1 30 := by
    have happ := List.range'_append 1 h (30 - h) 1
    simp only [one_mul] at happ
    rw [show 30 - h + h = 30 by omega] at happ
    exact happ
  rw [← hsplit, List.filter_append]
  have h1 : (List.range' 1 h).filter (fun yr => decide (yr ≤ h)) = List.range' 1 h := by
    apply List.filter_eq_self.mpr
    intro a ha
    rw [List.mem_range'_1] at ha
    simpa using by omega
  have h2 : (List.range' (1 + h) (30 - h)).filter (fun yr => decide (yr ≤ h)) = [] := by
    apply List.filter_eq_nil_iff.mpr
    intro a ha
    rw [List.mem_range'_1] at ha
    simpa using by omega
  rw [h1, h2, List.append_nil]

theorem bumpLast_append (l : List ℚ) (b v : ℚ) :
    bumpLast (l ++ [b]) v = l ++ [b + v] := by
  induction l with
  | nil => rfl
  | cons x xs ih =>
    cases xs with
    | nil => rfl
    | cons y ys =>
      simp only [List.cons_append] at ih ⊢
      rw [bumpLast, ih]

/-- Claim C4: for `1 ≤ hold_years ≤ 30` and positive total cash invested, the
cash-flow series handed to the IRR solver is a single negative first entry
`-(down payment + upfront costs)` followed by exactly `hold_years` entries,
the after-tax cash flows of years `1..hold_years`, with the net sale proceeds
added into the final entry. -/
theorem c4_irr_cash_flow_series (c : InvestmentCalculator)
    (h1 : 1 ≤ c.hold_years) (h30 : c.hold_years ≤ 30)
    (htci : 0 < c.total_cash_invested) :
    c.irrCashFlows
        = -c.total_cash_invested
            :: ((List.range' 1 (c.hold_years - 1)).map c.cashFlowATYr
                ++ [c.cashFlowATYr c.hold_years + c.netSaleProceeds])
    ∧ -c.total_cash_invested < 0
    ∧ c.irrCashFlows.length = c.hold_years + 1 := by
  have hneg : -c.total_cash_invested < 0 := by linarith
  have hpre : c.irrSeriesPre
      = -c.total_cash_invested :: (List.range' 1 c.hold_years).map c.cashFlowATYr := by
    unfold InvestmentCalculator.irrSeriesPre
    rw [filter_range'_le c.hold_years h30]
  have hsplit : List.range' 1 c.hold_years
      = List.range' 1 (c.hold_years - 1) ++ [c.hold_years] := by
    have hc := List.range'_1_concat 1 (c.hold_years - 1)
    rw [show c.hold_years - 1 + 1 = c.hold_years by omega,
      show 1 + (c.hold_years - 1) = c.hold_years by omega] at hc
    exact hc
  have hlen : c.irrSeriesPre.length = c.hold_years + 1 := by
    rw [hpre]
    simp [List.length_range']
  have hmain : c.irrCashFlows
      = -c.total_cash_invested
          :: ((List.range' 1 (c.hold_years - 1)).map c.cashFlowATYr
              ++ [c.cashFlowATYr c.hold_years + c.netSaleProceeds]) := by
    unfold InvestmentCalculator.irrCashFlows
    rw [if_pos (by omega), hpre, hsplit, List.map_append, List.map_singleton]
    calc bumpLast (-c.total_cash_invested
          :: ((List.range' 1 (c.hold_years - 1)).map c.cashFlowATYr
              ++ [c.cashFlowATYr c.hold_years])) c.netSaleProceeds
        = bumpLast ((-c.total_cash_invested
            :: (List.range' 1 (c.hold_years - 1)).map c.cashFlowATYr)
              ++ [c.cashFlowATYr c.hold_years]) c.netSaleProceeds := by
          rw [List.cons_append]
      _ = (-c.total_cash_invested
            :: (List.range' 1 (c.hold_years - 1)).map c.cashFlowATYr)
              ++ [c.cashFlowATYr c.hold_years + c.netSaleProceeds] :=
          bumpLast_append _ _ _
      _ = -c.total_cash_invested
            :: ((List.range' 1 (c.hold_years - 1)).map c.cashFlowATYr
                ++ [c.cashFlowATYr c.hold_years + c.netSaleProceeds]) := by
          rw [List.cons_append]
  refine ⟨hmain, hneg, ?_⟩
  rw [hmain]
  simp [List.length_range']
  omega

/-- A hold-1-year analysis with 20% down used to witness claim C4. -/
def seriesW : InvestmentCalculator :=
  { purchase_price := 100000
    estimated_rent := 1000
    loan_details := { down_payment := some 20000, upfront_costs := some 1000 }
    amortization := []
    hold_years := 1 }

/-- Witness for claim C4 at `seriesW` (hold_years = 1). -/
theorem c4_irr_cash_flow_series_witness :
    seriesW.irrCashFlows
        = -seriesW.total_cash_invested
            :: ((List.range' 1 (seriesW.hold_years - 1)).map seriesW.cashFlowATYr
                ++ [seriesW.cashFlowATYr seriesW.hold_years + seriesW.netSaleProceeds])
    ∧ -seriesW.total_cash_invested < 0
    ∧ seriesW.irrCashFlows.length = seriesW.hold_years + 1 :=
  c4_irr_cash_flow_series seriesW (by decide) (by decide)
    (by norm_num [InvestmentCalculator.total_cash_invested,
      InvestmentCalculator.down_payment, InvestmentCalculator.upfront_costs, seriesW])

/-!
## Claim C8
-/

namespace InvestmentCalculator

variable (c : InvestmentCalculator)

/-- The baseline annual cash flow recomputed at vacancy rate `v`: year-1 gross
income less vacancy, less the core-metrics operating expenses (management fee
included), less debt service. -/
def cashFlowAtVacancy (v : ℚ) : ℚ :=
  (c.grossIncome1 - c.grossIncome1 * v) - c.opex1 - c.annual_debt_service

end InvestmentCalculator

/-- Claim C8: when gross income is positive and the closed-form break-even
vacancy `1 - (debt_service + opex)/gross_income` lies in [0, 1] (so the clamp
is inactive), re-evaluating the baseline annual cash flow at the reported
`max_vacancy_rate` (a percentage rounded to 2 decimals) gives approximately
zero: within the rounding slack `1/200 + gross_income/20000` coming from the
cent-rounded reported opex and the 2-decimal-rounded reported rate. -/
theorem c8_break_even_vacancy (c : InvestmentCalculator)
    (hg : 0 < c.grossIncome1)
    (h0 : 0 ≤ 1 - (c.annual_debt_service
      + (c.calculateCoreMetrics).operating_expenses) / c.grossIncome1)
    (h1 : 1 - (c.annual_debt_service
      + (c.calculateCoreMetrics).operating_expenses) / c.grossIncome1 ≤ 1) :
    |c.cashFlowAtVacancy
        ((c.calcBreakEvens c.calculateCoreMetrics).max_vacancy_rate / 100)|
      ≤ 1/200 + c.grossIncome1 * (1/20000) := by
  have hOR : (c.calculateCoreMetrics).operating_expenses = rnd 2 c.opex1 := rfl
  have hgr : (0:ℚ) < c.estimated_rent * 12 := hg
  have hne : c.grossIncome1 ≠ 0 := ne_of_gt hg
  rw [hOR] at h0 h1
  have hclamp : max 0 (min (1 - (c.annual_debt_service + rnd 2 c.opex1)
      / c.grossIncome1) 1) = 1 - (c.annual_debt_service + rnd 2 c.opex1)
      / c.grossIncome1 := by
    rw [min_eq_left h1, max_eq_right h0]
  have hstored : (c.calcBreakEvens c.calculateCoreMetrics).max_vacancy_rate
      = rnd 2 ((1 - (c.annual_debt_service + rnd 2 c.opex1) / c.grossIncome1)
          * 100) := by
    show rnd 2 _ = _
    rw [if_pos hgr]
    rw [hOR]
    show rnd 2 (max 0 (min (1 - (c.annual_debt_service + rnd 2 c.opex1)
      / c.grossIncome1) 1) * 100) = _
    rw [hclamp]
  set G := c.grossIncome1 with hGdef
  set D := c.annual_debt_service with hDdef
  set O := c.opex1 with hOdef
  set v0 : ℚ := 1 - (D + rnd 2 O) / G with hv0
  rw [hstored]
  have hdiff : c.cashFlowAtVacancy (rnd 2 (v0 * 100) / 100)
      = (rnd 2 O - O) + G * ((v0 * 100 - rnd 2 (v0 * 100)) / 100) := by
    unfold InvestmentCalculator.cashFlowAtVacancy
    rw [← hGdef, ← hDdef, ← hOdef, hv0]
    field_simp
    ring
  rw [hdiff]
  have habs1 : |rnd 2 O - O| ≤ 1/200 := by
    have h := rnd_err 2 O
    norm_num at h
    exact h
  have habs2 : |(v0 * 100 - rnd 2 (v0 * 100)) / 100| ≤ 1/20000 := by
    have h := rnd_err 2 (v0 * 100)
    norm_num at h
    rw [abs_div, abs_of_pos (by norm_num : (0:ℚ) < 100), abs_sub_comm]
    linarith
  calc |(rnd 2 O - O) + G * ((v0 * 100 - rnd 2 (v0 * 100)) / 100)|
      ≤ |rnd 2 O - O| + |G * ((v0 * 100 - rnd 2 (v0 * 100)) / 100)| := abs_add _ _
    _ ≤ 1/200 + G * (1/20000) := by
        apply add_le_add habs1
        rw [abs_mul, abs_of_pos hg]
        exact mul_le_mul_of_nonneg_left habs2 (le_of_lt hg)

/-- A no-loan analysis (rent 2000, price 100000) whose break-even vacancy is
0.65, used to witness claim C8. -/
def vacW : InvestmentCalculator :=
  { purchase_price := 100000
    estimated_rent := 2000
    loan_details := {}
    amortization := [] }

/-- Witness for claim C8 at `vacW`. -/
theorem c8_break_even_vacancy_witness :
    |vacW.cashFlowAtVacancy
        ((vacW.calcBreakEvens vacW.calculateCoreMetrics).max_vacancy_rate / 100)|
      ≤ 1/200 + vacW.grossIncome1 * (1/20000) :=
  c8_break_even_vacancy vacW
    (by norm_num [InvestmentCalculator.grossIncome1, vacW])
    (by norm_num [vacW, InvestmentCalculator.calculateCoreMetrics,
      InvestmentCalculator.grossIncome1, InvestmentCalculator.vacancyLoss1,
      InvestmentCalculator.egi1, InvestmentCalculator.opex1,
      InvestmentCalculator.managementFee1, InvestmentCalculator.noi1,
      InvestmentCalculator.cashFlowBT1, InvestmentCalculator.annual_debt_service,
      InvestmentCalculator.total_cash_invested, InvestmentCalculator.down_payment,
      InvestmentCalculator.upfront_costs, InvestmentCalculator.property_tax_annual,
      InvestmentCalculator.insurance_annual, InvestmentCalculator.pmi_annual,
      InvestmentCalculator.hoa_annual, InvestmentCalculator.maintenance_annual,
      InvestmentCalculator.capex_reserve_annual, rnd, rndEven])
    (by norm_num [vacW, InvestmentCalculator.calculateCoreMetrics,
      InvestmentCalculator.grossIncome1, InvestmentCalculator.vacancyLoss1,
      InvestmentCalculator.egi1, InvestmentCalculator.opex1,
      InvestmentCalculator.managementFee1, InvestmentCalculator.noi1,
      InvestmentCalculator.cashFlowBT1, InvestmentCalculator.annual_debt_service,
      InvestmentCalculator.total_cash_invested, InvestmentCalculator.down_payment,
      InvestmentCalculator.upfront_costs, InvestmentCalculator.property_tax_annual,
      InvestmentCalculator.insurance_annual, InvestmentCalculator.pmi_annual,
      InvestmentCalculator.hoa_annual, InvestmentCalculator.maintenance_annual,
      InvestmentCalculator.capex_reserve_annual, rnd, rndEven])

/-!
## Claim C9
-/

theorem pyAbs_nonneg (x : ℚ) : 0 ≤ pyAbs x := by
  unfold pyAbs
  split_ifs with h <;> linarith

theorem clamp_mem (x : ℚ) : 0 ≤ min 100 (max 0 x) ∧ min 100 (max 0 x) ≤ 100 :=
  ⟨le_min (by norm_num) (le_max_left 0 x), min_le_left _ _⟩

theorem rnd_mem (d : ℕ) {x : ℚ} (h0 : 0 ≤ x) (h1 : x ≤ 100) :
    0 ≤ rnd d x ∧ rnd d x ≤ 100 := by
  refine ⟨rnd_nonneg d h0, ?_⟩
  have := rnd_mono d h1
  rwa [show ((100:ℚ) = ((100:ℤ) : ℚ)) by norm_num, rnd_intCast d 100] at this

theorem dscrScore_mem (d : Option ℚ) : 0 ≤ dscrScore d ∧ dscrScore d ≤ 100 := by
  cases d with
  | none => norm_num [dscrScore]
  | some q => exact ⟨(clamp_mem _).1, (clamp_mem _).2⟩

theorem riskComp_mem {rs : ℚ} (h : 0 ≤ rs) :
    0 ≤ max 0 (100 - rs) ∧ max 0 (100 - rs) ≤ 100 :=
  ⟨le_max_left _ _, max_le (by norm_num) (by linarith)⟩

theorem runStressTests_score_nonneg (c : InvestmentCalculator) (core : CoreMetrics) :
    0 ≤ (c.runStressTests core).overall_risk_score := by
  apply rnd_nonneg
  split_ifs
  · positivity
  · exact le_refl 0

theorem scoreRental_bounds (core : CoreMetrics) (proj : MultiYearProjection)
    (risk : RiskAnalysis) (hrs : 0 ≤ risk.overall_risk_score) :
    (0 ≤ (InvestmentCalculator.scoreRental core proj risk).score
      ∧ (InvestmentCalculator.scoreRental core proj risk).score ≤ 100)
    ∧ ∀ p ∈ (InvestmentCalculator.scoreRental core proj risk).component_scores,
        0 ≤ p.2 ∧ p.2 ≤ 100 := by
  obtain ⟨ha0, ha1⟩ := clamp_mem (core.cash_on_cash_return / 8 * 100)
  obtain ⟨hb0, hb1⟩ := clamp_mem (core.cap_rate / 6 * 100)
  obtain ⟨hc0, hc1⟩ := dscrScore_mem core.dscr
  obtain ⟨hd0, hd1⟩ := clamp_mem (core.cash_flow_before_tax / 12 / 200 * 100)
  obtain ⟨he0, he1⟩ := clamp_mem (proj.irr.getD 0 / 15 * 100)
  obtain ⟨hf0, hf1⟩ := riskComp_mem hrs
  dsimp only [InvestmentCalculator.scoreRental]
  refine ⟨rnd_mem 1 (le_min (by linarith) (by norm_num)) (min_le_right _ _), ?_⟩
  intro p hp
  fin_cases hp
  · exact rnd_mem 1 ha0 ha1
  · exact rnd_mem 1 hb0 hb1
  · exact rnd_mem 1 hc0 hc1
  · exact rnd_mem 1 hd0 hd1
  · exact rnd_mem 1 he0 he1
  · exact rnd_mem 1 hf0 hf1

theorem scoreFlip_bounds (c : InvestmentCalculator) :
    (0 ≤ c.scoreFlip.score ∧ c.scoreFlip.score ≤ 100)
    ∧ ∀ p ∈ c.scoreFlip.component_scores, 0 ≤ p.2 ∧ p.2 ≤ 100 := by
  obtain ⟨ha0, ha1⟩ := clamp_mem ((if c.purchase_price > 0 then
    (c.purchase_price * (1 + c.appreciation_rate) - c.purchase_price)
      / c.purchase_price * 100 else 0) / 20 * 100)
  obtain ⟨hb0, hb1⟩ := clamp_mem ((if c.purchase_price > 0 then
    (c.purchase_price * (1 + c.appreciation_rate) - c.purchase_price)
      / c.purchase_price * 100 else 0) / 15 * 100)
  dsimp only [InvestmentCalculator.scoreFlip]
  refine ⟨rnd_mem 1 (le_min (by linarith) (by norm_num)) (min_le_right _ _), ?_⟩
  intro p hp
  fin_cases hp
  · exact rnd_mem 1 ha0 ha1
  · exact rnd_mem 1 hb0 hb1

theorem scoreBrrrr_bounds (c : InvestmentCalculator) (core : CoreMetrics) :
    (0 ≤ (c.scoreBrrrr core).score ∧ (c.scoreBrrrr core).score ≤ 100)
    ∧ ∀ p ∈ (c.scoreBrrrr core).component_scores, 0 ≤ p.2 ∧ p.2 ≤ 100 := by
  obtain ⟨ha0, ha1⟩ := clamp_mem (core.cash_on_cash_return / 10 * 100)
  obtain ⟨hb0, hb1⟩ := clamp_mem ((if c.total_cash_invested > 0 then
    (c.purchase_price * (1 + c.appreciation_rate) * (75/100) - c.loan_amount)
      / c.total_cash_invested * 100 else 0) / 100 * 100)
  obtain ⟨hc0, hc1⟩ := dscrScore_mem core.dscr
  dsimp only [InvestmentCalculator.scoreBrrrr]
  refine ⟨rnd_mem 1 (le_min (by linarith) (by norm_num)) (min_le_right _ _), ?_⟩
  intro p hp
  fin_cases hp
  · exact rnd_mem 1 ha0 ha1
  · exact rnd_mem 1 hb0 hb1
  · exact rnd_mem 1 hc0 hc1

theorem scoreHouseHack_bounds (c : InvestmentCalculator) :
    (0 ≤ c.scoreHouseHack.score ∧ c.scoreHouseHack.score ≤ 100)
    ∧ ∀ p ∈ c.scoreHouseHack.component_scores, 0 ≤ p.2 ∧ p.2 ≤ 100 := by
  obtain ⟨ha0, ha1⟩ := clamp_mem ((if c.loan_details.total_monthly_payment.getD 0 > 0 then
    c.estimated_rent / c.loan_details.total_monthly_payment.getD 0 * 100 else 0) / 100 * 100)
  obtain ⟨hb0, hb1⟩ := clamp_mem ((if c.loan_details.total_monthly_payment.getD 0 > 0 then
    (c.loan_details.total_monthly_payment.getD 0
      - (c.loan_details.total_monthly_payment.getD 0 - c.estimated_rent * (1/2)))
      / c.loan_details.total_monthly_payment.getD 0 * 100 else 0) / 50 * 100)
  dsimp only [InvestmentCalculator.scoreHouseHack]
  refine ⟨rnd_mem 1 (le_min (by linarith) (by norm_num)) (min_le_right _ _), ?_⟩
  intro p hp
  fin_cases hp
  · exact rnd_mem 1 ha0 ha1
  · exact rnd_mem 1 hb0 hb1

theorem equityScorePart_mem (tci e s : ℚ) :
    0 ≤ (if tci > 0 then min 100 (max 0 ((e + s) / tci / 5 * 100)) else 0)
    ∧ (if tci > 0 then min 100 (max 0 ((e + s) / tci / 5 * 100)) else 0) ≤ 100 := by
  split_ifs
  · exact clamp_mem _
  · norm_num

theorem cfPenalty_mem (cf tci : ℚ) :
    0 ≤ (if cf < 0 then max (1/10) (1 - pyAbs cf / max tci 1) else (1:ℚ))
    ∧ (if cf < 0 then max (1/10) (1 - pyAbs cf / max tci 1) else (1:ℚ)) ≤ 1 := by
  split_ifs with h
  · constructor
    · exact le_trans (by norm_num) (le_max_left _ _)
    · apply max_le (by norm_num)
      have h1 : (0:ℚ) < max tci 1 := lt_of_lt_of_le (by norm_num) (le_max_right _ _)
      have h2 : 0 ≤ pyAbs cf / max tci 1 := div_nonneg (pyAbs_nonneg _) (le_of_lt h1)
      linarith
  · norm_num

theorem scoreLongTerm_bounds (c : InvestmentCalculator) (core : CoreMetrics)
    (proj : MultiYearProjection) (risk : RiskAnalysis)
    (hrs : 0 ≤ risk.overall_risk_score) :
    (0 ≤ (c.scoreLongTerm core proj risk).score
      ∧ (c.scoreLongTerm core proj risk).score ≤ 100)
    ∧ ∀ p ∈ (c.scoreLongTerm core proj risk).component_scores,
        0 ≤ p.2 ∧ p.2 ≤ 100 := by
  obtain ⟨ha0, ha1⟩ := clamp_mem (proj.irr.getD 0 / 12 * 100)
  obtain ⟨hc0, hc1⟩ := clamp_mem (c.appreciation_rate / (5/100) * 100)
  obtain ⟨hd0, hd1⟩ := riskComp_mem hrs
  obtain ⟨hp0, hp1⟩ := cfPenalty_mem core.cash_flow_before_tax c.total_cash_invested
  dsimp only [InvestmentCalculator.scoreLongTerm]
  rcases hyr : yearTenRecord proj with _ | y
  · dsimp only
    have htot : (0:ℚ) ≤ (min 100 (max 0 (proj.irr.getD 0 / 12 * 100)) * (35/100)
        + 0 * (30/100) + min 100 (max 0 (c.appreciation_rate / (5/100) * 100)) * (20/100)
        + max 0 (100 - risk.overall_risk_score) * (15/100)) := by linarith
    refine ⟨rnd_mem 1 (le_min (mul_nonneg htot hp0) (by norm_num)) (min_le_right _ _), ?_⟩
    intro p hp
    fin_cases hp
    · exact rnd_mem 1 ha0 ha1
    · exact rnd_mem 1 (le_refl 0) (by norm_num)
    · exact rnd_mem 1 hc0 hc1
    · exact rnd_mem 1 hd0 hd1
  · dsimp only
    obtain ⟨hb0, hb1⟩ := equityScorePart_mem c.total_cash_invested y.equity
      (((proj.years.take 10).map (fun yp => yp.cash_flow_before_tax)).sum)
    have htot : (0:ℚ) ≤ (min 100 (max 0 (proj.irr.getD 0 / 12 * 100)) * (35/100)
        + (if c.total_cash_invested > 0 then
            min 100 (max 0 ((y.equity
              + ((proj.years.take 10).map (fun yp => yp.cash_flow_before_tax)).sum)
                / c.total_cash_invested / 5 * 100)) else 0) * (30/100)
        + min 100 (max 0 (c.appreciation_rate / (5/100) * 100)) * (20/100)
        + max 0 (100 - risk.overall_risk_score) * (15/100)) := by linarith
    refine ⟨rnd_mem 1 (le_min (mul_nonneg htot hp0) (by norm_num)) (min_le_right _ _), ?_⟩
    intro p hp
    fin_cases hp
    · exact rnd_mem 1 ha0 ha1
    · exact rnd_mem 1 hb0 hb1
    · exact rnd_mem 1 hc0 hc1
    · exact rnd_mem 1 hd0 hd1

/-- Claim C9: every named component sub-score and every strategy's overall
score produced by `score_all_strategies` (with the risk analysis coming from
`run_stress_tests`) lies within [0, 100]; in particular the long-term
strategy's multiplicative cash-flow penalty keeps its total in range. -/
theorem c9_scores_clamped (c : InvestmentCalculator) (core : CoreMetrics)
    (proj : MultiYearProjection) :
    ∀ sc ∈ c.scoreAllStrategies core proj (c.runStressTests core),
      (0 ≤ sc.score ∧ sc.score ≤ 100)
      ∧ ∀ p ∈ sc.component_scores, 0 ≤ p.2 ∧ p.2 ≤ 100 := by
  have hrs := runStressTests_score_nonneg c core
  intro sc hsc
  dsimp only [InvestmentCalculator.scoreAllStrategies] at hsc
  fin_cases hsc
  · exact scoreRental_bounds core proj _ hrs
  · exact scoreFlip_bounds c
  · exact scoreBrrrr_bounds c core
  · exact scoreHouseHack_bounds c
  · exact scoreLongTerm_bounds c core proj _ hrs

/-- A minimal analysis used to witness claim C9. -/
def scoreW : InvestmentCalculator :=
  { purchase_price := 100000
    estimated_rent := 1000
    loan_details := {}
    amortization := [] }

/-- Witness for claim C9: the flip strategy's overall score at `scoreW` is in
[0, 100]. -/
theorem c9_scores_clamped_witness :
    0 ≤ scoreW.scoreFlip.score ∧ scoreW.scoreFlip.score ≤ 100 :=
  (c9_scores_clamped scoreW {} {} scoreW.scoreFlip
    (by dsimp only [InvestmentCalculator.scoreAllStrategies]
        exact List.mem_cons_of_mem _ (List.mem_cons_self _ _))).1

/-!
## Claim C6
-/

theorem dscrAtLeastOne_iff (d : Option ℚ) :
    InvestmentCalculator.dscrAtLeastOne d = true ↔ ∀ q, d = some q → 1 ≤ q := by
  cases d with
  | none => simp [InvestmentCalculator.dscrAtLeastOne]
  | some q => simp [InvestmentCalculator.dscrAtLeastOne]

/-- Claim C6 (amended): `run_stress_tests` produces exactly the six fixed
scenarios (vacancy ×2, rate +2%, rent −10%, rent −20%, expenses ×1.5, combined
downturn vacancy ×1.5 / rent −10% / expenses ×1.2); a scenario passes iff its
recomputed annual cash flow is ≥ 0 and its DSCR (infinite when debt service is
0) is ≥ 1; and the stored overall risk score is (failing count / 6) × 100
rounded to one decimal place. -/
theorem c6_stress_scenarios (c : InvestmentCalculator) (core : CoreMetrics) :
    (c.runStressTests core).scenarios.length = 6
    ∧ (c.runStressTests core).scenarios
        = [ c.calcScenario "Vacancy Doubles" (c.vacancy_rate * 2) 1 1 0
          , c.calcScenario "Rate +2%" c.vacancy_rate 1 1 (2/100)
          , c.calcScenario "Rent -10%" c.vacancy_rate (90/100) 1 0
          , c.calcScenario "Rent -20%" c.vacancy_rate (80/100) 1 0
          , c.calcScenario "Expense Surge" c.vacancy_rate 1 (150/100) 0
          , c.calcScenario "Combined Downturn" (c.vacancy_rate * (15/10)) (90/100) (120/100) 0 ]
    ∧ (∀ nm vac rm em ra, ((c.calcScenario nm vac rm em ra).passes = true
        ↔ (c.scenCF vac rm em ra ≥ 0
            ∧ ∀ q, c.scenDSCR vac rm em ra = some q → 1 ≤ q)))
    ∧ (c.runStressTests core).overall_risk_score
        = rnd 1 ((c.stressScenarios.countP (fun s => !s.passes) : ℚ) / 6 * 100) := by
  refine ⟨rfl, rfl, ?_, ?_⟩
  · intro nm vac rm em ra
    show (decide (c.scenCF vac rm em ra ≥ 0)
        && InvestmentCalculator.dscrAtLeastOne (c.scenDSCR vac rm em ra)) = true ↔ _
    rw [Bool.and_eq_true, decide_eq_true_eq, dscrAtLeastOne_iff]
  · show rnd 1 (if c.stressScenarios ≠ [] then
        (c.stressScenarios.countP (fun s => !s.passes) : ℚ)
          / c.stressScenarios.length * 100 else 0) = _
    rw [if_pos (by simp [InvestmentCalculator.stressScenarios])]
    norm_num [InvestmentCalculator.stressScenarios]

/-- A no-loan analysis used to witness and refute claim C6: price 10000,
rent 1000/month, property tax 6600, zero insurance.  Exactly one stress
scenario ("Expense Surge", cash flow -300) fails. -/
def stressCex : InvestmentCalculator :=
  { purchase_price := 10000
    estimated_rent := 1000
    loan_details := { property_tax_annual := some 6600, insurance_annual := some 0 }
    amortization := [] }

/-- Witness for claim C6's amended statement at `stressCex`. -/
theorem c6_stress_scenarios_witness :
    (stressCex.runStressTests stressCex.calculateCoreMetrics).scenarios.length = 6 :=
  (c6_stress_scenarios stressCex stressCex.calculateCoreMetrics).1

/-- Claim C6 counterexample: at `stressCex` exactly one scenario fails, the
stored overall risk score is 16.7 (the one-decimal rounding of 100/6), and
16.7 is not equal to `(failing count / 6) * 100` for any possible failing
count 0..6 — so the stored score does not exactly equal (failing/6) × 100. -/
theorem c6_counterexample :
    (stressCex.runStressTests stressCex.calculateCoreMetrics).scenarios.countP
        (fun s => !s.passes) = 1
    ∧ (stressCex.runStressTests stressCex.calculateCoreMetrics).overall_risk_score
        = 167/10
    ∧ (167:ℚ)/10 ≠ (0:ℚ)/6 * 100 ∧ (167:ℚ)/10 ≠ (1:ℚ)/6 * 100
    ∧ (167:ℚ)/10 ≠ (2:ℚ)/6 * 100 ∧ (167:ℚ)/10 ≠ (3:ℚ)/6 * 100
    ∧ (167:ℚ)/10 ≠ (4:ℚ)/6 * 100 ∧ (167:ℚ)/10 ≠ (5:ℚ)/6 * 100
    ∧ (167:ℚ)/10 ≠ (6:ℚ)/6 * 100 := by
  have hcount : (stressCex.runStressTests stressCex.calculateCoreMetrics).scenarios.countP
      (fun s => !s.passes) = 1 := by
    norm_num [InvestmentCalculator.runStressTests, InvestmentCalculator.stressScenarios,
      InvestmentCalculator.calcScenario, InvestmentCalculator.scenCF,
      InvestmentCalculator.scenNOI, InvestmentCalculator.scenDS,
      InvestmentCalculator.scenDSCR, InvestmentCalculator.baseOpexNoMgmt,
      InvestmentCalculator.annual_debt_service, InvestmentCalculator.loan_amount,
      InvestmentCalculator.property_tax_annual, InvestmentCalculator.insurance_annual,
      InvestmentCalculator.pmi_annual, InvestmentCalculator.hoa_annual,
      InvestmentCalculator.maintenance_annual, InvestmentCalculator.capex_reserve_annual,
      InvestmentCalculator.total_cash_invested, InvestmentCalculator.down_payment,
      InvestmentCalculator.upfront_costs, calculateMonthlyPayment,
      List.countP_cons, List.countP_nil, InvestmentCalculator.dscrAtLeastOne,
      rnd, rndEven, stressCex]
  refine ⟨hcount, ?_, by norm_num, by norm_num, by norm_num, by norm_num, by norm_num,
    by norm_num, by norm_num⟩
  have hc2 : stressCex.stressScenarios.countP (fun s => !s.passes) = 1 := hcount
  show rnd 1 (if stressCex.stressScenarios ≠ [] then
      ((stressCex.stressScenarios.countP (fun s => !s.passes) : ℕ) : ℚ)
        / stressCex.stressScenarios.length * 100 else 0) = 167/10
  rw [if_pos (by simp [InvestmentCalculator.stressScenarios]), hc2]
  have hlen : stressCex.stressScenarios.length = 6 := rfl
  rw [hlen]
  norm_num [rnd, rndEven]

/-!
## Claim C2
-/

/-- Claim C2 (amended): when the loan amount is positive, the quoted interest
rate is positive, the term is nonzero, and the baseline annual debt service is
the one produced by the external payment formula at the quoted rate (as the
loan collaborator supplies it), the "Rate +2%" stress scenario's annual cash
flow is less than or equal to the baseline annual cash flow; strictness can
fail because both payments are rounded to whole cents. -/
theorem c2_rate_stress (c : InvestmentCalculator)
    (hL : 0 < c.loan_amount) (hr : 0 < c.interest_rate) (ht : c.loan_term ≠ 0)
    (hds : c.annual_debt_service
      = calculateMonthlyPayment c.loan_amount c.interest_rate c.loan_term * 12) :
    c.scenCF c.vacancy_rate 1 1 (2/100) ≤ c.scenCF c.vacancy_rate 1 1 0 := by
  unfold InvestmentCalculator.scenCF
  apply sub_le_sub_left
  unfold InvestmentCalculator.scenDS
  rw [if_pos (by norm_num : (2:ℚ)/100 > 0), if_neg (lt_irrefl (0:ℚ)), hds]
  have hmono := calculateMonthlyPayment_mono c.loan_amount c.interest_rate
    (c.interest_rate + 2/100) hr (by linarith) c.loan_term ht
  linarith

/-- A one-year, 6.5% loan of 1000 used to witness claim C2, with the baseline
debt service produced by the external payment formula. -/
def rateW : InvestmentCalculator :=
  { purchase_price := 100000
    estimated_rent := 1000
    loan_details :=
      { loan_amount := some 1000
        monthly_principal_interest := some (calculateMonthlyPayment 1000 (65/1000) 1)
        interest_rate_decimal := some (65/1000)
        loan_term_years := some 1 }
    amortization := [] }

/-- Witness for claim C2 at `rateW`. -/
theorem c2_rate_stress_witness :
    rateW.scenCF rateW.vacancy_rate 1 1 (2/100) ≤ rateW.scenCF rateW.vacancy_rate 1 1 0 :=
  c2_rate_stress rateW
    (by norm_num [InvestmentCalculator.loan_amount, rateW])
    (by norm_num [InvestmentCalculator.interest_rate, rateW])
    (by norm_num [InvestmentCalculator.loan_term, rateW])
    rfl

/-- A degenerate but accepted input: a one-cent loan at interest rate 0 for
one year.  The baseline zero-rate payment branch is unrounded (`0.01/12`)
while the recomputed 2% payment rounds to 0 cents, so the "Rate +2%" scenario
cash flow strictly exceeds the baseline. -/
def rateCex : InvestmentCalculator :=
  { purchase_price := 100000
    estimated_rent := 1000
    loan_details :=
      { loan_amount := some (1/100)
        monthly_principal_interest := some (calculateMonthlyPayment (1/100) 0 1)
        interest_rate_decimal := some 0
        loan_term_years := some 1 }
    amortization := [] }

/-- Claim C2 counterexample: at `rateCex` the loan amount is positive and the
baseline debt service comes from the external payment formula, yet the
"Rate +2%" scenario's annual cash flow is not strictly below the baseline
cash flow (it is strictly above it, by the baseline's unrounded 1/100). -/
theorem c2_counterexample :
    0 < rateCex.loan_amount
    ∧ rateCex.annual_debt_service
        = calculateMonthlyPayment rateCex.loan_amount rateCex.interest_rate
            rateCex.loan_term * 12
    ∧ ¬ (rateCex.scenCF rateCex.vacancy_rate 1 1 (2/100)
          < rateCex.scenCF rateCex.vacancy_rate 1 1 0) := by
  refine ⟨by norm_num [InvestmentCalculator.loan_amount, rateCex], rfl, ?_⟩
  norm_num [InvestmentCalculator.scenCF, InvestmentCalculator.scenNOI,
    InvestmentCalculator.scenDS, InvestmentCalculator.baseOpexNoMgmt,
    InvestmentCalculator.annual_debt_service, InvestmentCalculator.loan_amount,
    InvestmentCalculator.interest_rate, InvestmentCalculator.loan_term,
    InvestmentCalculator.property_tax_annual, InvestmentCalculator.insurance_annual,
    InvestmentCalculator.pmi_annual, InvestmentCalculator.hoa_annual,
    InvestmentCalculator.maintenance_annual, InvestmentCalculator.capex_reserve_annual,
    calculateMonthlyPayment, rnd, rndEven, rateCex]

/-!
## Claim C3
-/

theorem irrLoop_succ (cashFlows : List ℚ) (fuel : ℕ) (r : ℚ) :
    irrLoop cashFlows (fuel + 1) r =
      (if pyAbs (dnpvAt cashFlows r) < 1/10^12 then Sum.inr r
       else
         if pyAbs (max (-(99/100))
              (min (r - npvAt cashFlows r / dnpvAt cashFlows r) 2) - r) < 1/10^8 then
           if pyAbs (max (-(99/100))
                (min (r - npvAt cashFlows r / dnpvAt cashFlows r) 2) - 2) < 1/10^8
              ∨ pyAbs (max (-(99/100))
                  (min (r - npvAt cashFlows r / dnpvAt cashFlows r) 2) - (-(99/100)))
                < 1/10^8
           then Sum.inr r
           else Sum.inl (max (-(99/100))
                  (min (r - npvAt cashFlows r / dnpvAt cashFlows r) 2))
         else irrLoop cashFlows fuel (max (-(99/100))
                (min (r - npvAt cashFlows r / dnpvAt cashFlows r) 2))) := rfl

theorem irrLoop_range (cashFlows : List ℚ) (fuel : ℕ) :
    ∀ r : ℚ, -(99/100) ≤ r → r ≤ 2 →
      -(99/100) ≤ (irrLoop cashFlows fuel r).elim id id
        ∧ (irrLoop cashFlows fuel r).elim id id ≤ 2 := by
  induction fuel with
  | zero =>
    intro r h1 h2
    exact ⟨h1, h2⟩
  | succ f ih =>
    intro r h1 h2
    rw [irrLoop_succ]
    have hlo : -(99/100)
        ≤ max (-(99/100)) (min (r - npvAt cashFlows r / dnpvAt cashFlows r) 2) :=
      le_max_left _ _
    have hhi : max (-(99/100)) (min (r - npvAt cashFlows r / dnpvAt cashFlows r) 2)
        ≤ 2 := max_le (by norm_num) (min_le_right _ _)
    split_ifs
    · exact ⟨h1, h2⟩
    · exact ⟨h1, h2⟩
    · exact ⟨hlo, hhi⟩
    · exact ih _ hlo hhi

theorem r0_bounds (cashFlows : List ℚ) :
    -(99/100) ≤ (if pyAbs cashFlows.headI > 0 then
        max (-(1/2)) (min ((cashFlows.tail.sum - pyAbs cashFlows.headI)
          / pyAbs cashFlows.headI / (cashFlows.length : ℚ)) (1/2))
      else (1/10:ℚ))
    ∧ (if pyAbs cashFlows.headI > 0 then
        max (-(1/2)) (min ((cashFlows.tail.sum - pyAbs cashFlows.headI)
          / pyAbs cashFlows.headI / (cashFlows.length : ℚ)) (1/2))
      else (1/10:ℚ)) ≤ 2 := by
  constructor
  · split_ifs
    · exact le_trans (by norm_num) (le_max_left _ _)
    · norm_num
  · split_ifs
    · exact max_le (by norm_num) (le_trans (min_le_right _ _) (by norm_num))
    · norm_num

theorem irr_some_range (cashFlows : List ℚ) (r0 : ℚ)
    (h01 : -(99/100) ≤ r0) (h02 : r0 ≤ 2) (r : ℚ)
    (h : (match irrLoop cashFlows 200 r0 with
          | Sum.inl rNew => some rNew
          | Sum.inr rr =>
            if pyAbs (npvAt cashFlows rr) < max 1 (pyAbs cashFlows.headI * (1/1000))
            then some rr else none) = some r) :
    -(99/100) ≤ r ∧ r ≤ 2 := by
  have hrange := irrLoop_range cashFlows 200 r0 h01 h02
  rcases hres : irrLoop cashFlows 200 r0 with s | s <;> rw [hres] at h hrange <;>
    dsimp only at h hrange
  · cases h
    exact hrange
  · split_ifs at h
    cases h
    exact hrange

/-- Claim C3 (amended): `calculate_irr` returns `None` when the series has
fewer than 2 entries or when the sum of the entries after the first is ≤ 0,
and every numeric rate it returns lies within the clamp range [-0.99, 2.00].
The original claim's further guarantees — `|NPV| < max(1, 0.1% of invested
capital)` and "never a clamp-boundary value" — do not hold (see the
counterexample) because the in-loop early return skips the post-loop NPV
verification and the post-loop path can accept a clamped iterate. -/
theorem c3_irr_guarantees (cashFlows : List ℚ) :
    (cashFlows.length < 2 → calculateIRR cashFlows = none)
    ∧ (cashFlows.tail.sum ≤ 0 → calculateIRR cashFlows = none)
    ∧ (∀ r, calculateIRR cashFlows = some r → -(99/100) ≤ r ∧ r ≤ 2) := by
  refine ⟨?_, ?_, ?_⟩
  · intro h
    unfold calculateIRR
    rw [if_pos h]
  · intro h
    unfold calculateIRR
    dsimp only
    split_ifs with h2
    · rfl
    · rfl
  · intro r hr
    unfold calculateIRR at hr
    dsimp only at hr
    by_cases h2 : cashFlows.length < 2
    · rw [if_pos h2] at hr
      cases hr
    rw [if_neg h2] at hr
    by_cases hts : cashFlows.tail.sum ≤ 0
    · rw [if_pos hts] at hr
      cases hr
    rw [if_neg hts] at hr
    exact irr_some_range cashFlows _ (r0_bounds cashFlows).1 (r0_bounds cashFlows).2 r hr

/-- Running the Newton loop on `[-1, 23/5]` (whose exact IRR is 360%, beyond
the 200% clamp): the iterates are 1/2, 139/92, then the clamp value 2, where
the loop breaks at the boundary and hands 2 to the post-loop check. -/
theorem irrLoop_eval_boundary : irrLoop [(-1 : ℚ), 23/5] 200 (1/2) = Sum.inr 2 := by
  rw [show (200:ℕ) = 199 + 1 from rfl, irrLoop_succ]
  norm_num [npvAt, dnpvAt, pyAbs, List.enum, List.enumFrom, List.sum_cons,
    List.sum_nil, min_def, max_def]
  rw [show (199:ℕ) = 198 + 1 from rfl, irrLoop_succ]
  norm_num [npvAt, dnpvAt, pyAbs, List.enum, List.enumFrom, List.sum_cons,
    List.sum_nil, min_def, max_def]
  rw [show (198:ℕ) = 197 + 1 from rfl, irrLoop_succ]
  norm_num [npvAt, dnpvAt, pyAbs, List.enum, List.enumFrom, List.sum_cons,
    List.sum_nil, min_def, max_def]

theorem irr_eval_boundary : calculateIRR [(-1 : ℚ), 23/5] = some 2 := by
  unfold calculateIRR
  norm_num [pyAbs, List.headI, List.sum_cons, List.sum_nil, min_def, max_def,
    irrLoop_eval_boundary, npvAt, List.enum, List.enumFrom]

/-- A series engineered so that the very first Newton step is smaller than the
1e-8 tolerance (the derivative is -1 while the NPV is 5e-9) although the NPV
away from the returned rate is about 1.25: the in-loop `return r_new` fires
without any NPV verification. -/
theorem irrLoop_eval_early :
    irrLoop [(-1 : ℚ), 67499999999999999100000009/400000000,
      -(404999999999999991900000027/800000000),
      607499999999999989200000027/1600000000] 200 (1/2)
      = Sum.inl (100000001/200000000) := by
  rw [show (200:ℕ) = 199 + 1 from rfl, irrLoop_succ]
  norm_num [npvAt, dnpvAt, pyAbs, List.enum, List.enumFrom, List.sum_cons,
    List.sum_nil, min_def, max_def]

theorem irr_eval_early :
    calculateIRR [(-1 : ℚ), 67499999999999999100000009/400000000,
      -(404999999999999991900000027/800000000),
      607499999999999989200000027/1600000000]
      = some (100000001/200000000) := by
  unfold calculateIRR
  norm_num [pyAbs, List.headI, List.sum_cons, List.sum_nil, min_def, max_def,
    irrLoop_eval_early, npvAt, List.enum, List.enumFrom]

/-- Claim C3 counterexample: (i) on `[-1, 4.6]` the solver returns exactly the
clamp boundary 2.00, which the claim forbids; (ii) on the second series it
returns a rate whose |NPV| (about 1.25) is not below
`max(1, 0.001 * |first entry|)` = 1, violating the claimed NPV bound. -/
theorem c3_counterexample :
    calculateIRR [(-1 : ℚ), 23/5] = some 2
    ∧ calculateIRR [(-1 : ℚ), 67499999999999999100000009/400000000,
        -(404999999999999991900000027/800000000),
        607499999999999989200000027/1600000000]
        = some (100000001/200000000)
    ∧ max 1 (pyAbs (-1 : ℚ) * (1/1000))
        ≤ pyAbs (npvAt [(-1 : ℚ), 67499999999999999100000009/400000000,
            -(404999999999999991900000027/800000000),
            607499999999999989200000027/1600000000] (100000001/200000000)) :=
  ⟨irr_eval_boundary, irr_eval_early,
   by norm_num [npvAt, pyAbs, List.enum, List.enumFrom, List.sum_cons,
     List.sum_nil, max_def]⟩

/-- Witness for claim C3's amended statement: a one-entry series and a series
with nonpositive tail both give `None`, and the rate returned on `[-1, 4.6]`
lies within [-0.99, 2]. -/
theorem c3_irr_guarantees_witness :
    calculateIRR [(1:ℚ)] = none
    ∧ calculateIRR [(-1:ℚ), -1] = none
    ∧ (-(99/100) ≤ (2:ℚ) ∧ (2:ℚ) ≤ 2) :=
  ⟨(c3_irr_guarantees [1]).1 (by norm_num),
   (c3_irr_guarantees [(-1:ℚ), -1]).2.1 (by norm_num),
   (c3_irr_guarantees [(-1 : ℚ), 23/5]).2.2 2 irr_eval_boundary⟩

/-!
## Claim C5
-/

/-- The worked scenario of §8: price 200000, rent 1500/month, 20% down
(40000), 6.5% 30-year conventional loan (no PMI, no upfront costs), property
tax 3000, insurance 1000, defaults for everything else.  The loan-details
entries are the ones the external loan calculator produces for these inputs. -/
def workedW : InvestmentCalculator :=
  { purchase_price := 200000
    estimated_rent := 1500
    loan_details :=
      { loan_amount := some 160000
        monthly_principal_interest := some (calculateMonthlyPayment 160000 (65/1000) 30)
        down_payment := some 40000
        upfront_costs := some 0
        interest_rate_decimal := some (65/1000)
        loan_term_years := some 30
        property_tax_annual := some 3000
        insurance_annual := some 1000
        pmi_monthly := some 0
        hoa_monthly := some 0 }
    amortization := [] }

/-- The 6.5%/30-year payment on 160000 rounds to 1011.31 (not the 1011.36 of
the worked example in the specification). -/
theorem workedPayment : calculateMonthlyPayment 160000 (13/200) 30 = 101131/100 := by
  unfold calculateMonthlyPayment
  norm_num [rnd, rndEven]

theorem workedADS :
    workedW.calculateCoreMetrics.annual_debt_service = 1213572/100 := by
  norm_num [InvestmentCalculator.calculateCoreMetrics,
    InvestmentCalculator.annual_debt_service, workedW, workedPayment, rnd, rndEven]

/-- Claim C5 (amended): the worked scenario's metrics as the code computes
them.  Gross income 18000, vacancy loss 900, EGI 17100, management fee 1800,
operating expenses 13800, NOI 3300 and cap rate 1.65% are as claimed; the
monthly P&I is 1011.31 (not ≈1011.36), so annual debt service is 12135.72,
pre-tax cash flow is -8835.72, and DSCR still rounds to 0.27. -/
theorem c5_worked_scenario :
    workedW.calculateCoreMetrics.gross_rental_income = 18000
    ∧ workedW.calculateCoreMetrics.vacancy_loss = 900
    ∧ workedW.calculateCoreMetrics.effective_gross_income = 17100
    ∧ workedW.managementFee1 = 1800
    ∧ workedW.calculateCoreMetrics.operating_expenses = 13800
    ∧ workedW.calculateCoreMetrics.noi = 3300
    ∧ calculateMonthlyPayment 160000 (13/200) 30 = 101131/100
    ∧ workedW.calculateCoreMetrics.annual_debt_service = 1213572/100
    ∧ workedW.calculateCoreMetrics.cash_flow_before_tax = -(883572/100)
    ∧ workedW.calculateCoreMetrics.dscr = some (27/100)
    ∧ workedW.calculateCoreMetrics.cap_rate = 165/100 := by
  refine ⟨?_, ?_, ?_, ?_, ?_, ?_, workedPayment, workedADS, ?_, ?_, ?_⟩ <;>
    norm_num [InvestmentCalculator.calculateCoreMetrics,
      InvestmentCalculator.grossIncome1, InvestmentCalculator.vacancyLoss1,
      InvestmentCalculator.egi1, InvestmentCalculator.managementFee1,
      InvestmentCalculator.opex1, InvestmentCalculator.noi1,
      InvestmentCalculator.cashFlowBT1, InvestmentCalculator.annual_debt_service,
      InvestmentCalculator.total_cash_invested, InvestmentCalculator.down_payment,
      InvestmentCalculator.upfront_costs, InvestmentCalculator.property_tax_annual,
      InvestmentCalculator.insurance_annual, InvestmentCalculator.pmi_annual,
      InvestmentCalculator.hoa_annual, InvestmentCalculator.maintenance_annual,
      InvestmentCalculator.capex_reserve_annual, workedW, workedPayment, rnd, rndEven]

/-- Claim C5 counterexample: the annual debt service the code computes for the
worked scenario is 12135.72, which differs from the specification's claimed
≈12136.32 by 0.60 — more than any rounding tolerance (the claimed figures are
given to the cent). -/
theorem c5_counterexample :
    workedW.calculateCoreMetrics.annual_debt_service = 1213572/100
    ∧ (1/2 : ℚ) < |1213572/100 - (1213632/100 : ℚ)| := by
  refine ⟨workedADS, ?_⟩
  have hd : (1213572:ℚ)/100 - 1213632/100 = -(6/10) := by norm_num
  rw [hd, abs_neg, abs_of_nonneg (by norm_num : (0:ℚ) ≤ 6/10)]
  norm_num

end BetterDeal